import Mathlib

/-!
# AssetFlow: the education routes' fleet-cycling allocator

A shallow embedding of `backend/routes/education.js`: the relational tables are
lists of rows, a query is a list function over them, and a route handler maps
the database and the request to a response together with the database it leaves
behind.

Conventions of the embedding
* dates are day numbers (`Int`), compared as SQL compares `date` values;
* `ORDER BY serial_number` is the code-point lexicographic order on strings, and
  rows with equal keys keep their table order;
* `LIKE` is the SQL pattern match with `%`, `_` and the backslash escape;
* primary keys are natural numbers;
* queries over well-typed rows do not fail, so the `catch` branches (status 500) of
  the handlers are not reached.
-/

namespace AssetFlow

/-! ## Rows -/

/-- A row of the `equipment` table. -/
structure Equipment where
  id : Nat
  serial_number : Option String
  name : String
  type : String
  status : String
deriving DecidableEq, Repr

/-- A row of the `requests` table (the reservation ledger). -/
structure Reservation where
  id : Nat
  user_id : Nat
  equipment_id : Nat
  start_date : Int
  end_date : Int
  status : String
  notes : Option String
deriving DecidableEq, Repr

/-- A row of the `lesson_plans` table. -/
structure LessonPlan where
  id : Nat
  teacher_id : Nat
  subject_id : Option Nat
  title : String
  description : Option String
  learning_objectives : List String
  required_equipment : List String
  lesson_date : Option Int
  duration_minutes : Option Nat
  grade_level : Option String
  start_date : Option Int
  end_date : Option Int
deriving DecidableEq, Repr

/-- A row of the `subjects` table. -/
structure Subject where
  id : Nat
  name : String
  code : String
  description : Option String
  grade_level : Option String
  room : Option String
  teacher_name : Option String
  equipment_fleets : Option (List String)
deriving DecidableEq, Repr

/-- The relational store the routes query. -/
structure Db where
  subjects : List Subject
  lesson_plans : List LessonPlan
  equipment : List Equipment
  requests : List Reservation
deriving DecidableEq, Repr

/-! ## Base serial -/

/-- The JavaScript call `s.replace(/\d{3}$/, '')` on the characters of `s`: when the
last three characters are ASCII digits they are removed, otherwise `s` is returned. -/
def replaceTrailingDigits3 (cs : List Char) : List Char :=
  if 3 ≤ cs.length ∧ (cs.drop (cs.length - 3)).all Char.isDigit = true then
    cs.take (cs.length - 3)
  else cs

/-- The expression
`equipment.serial_number ? equipment.serial_number.replace(/\d{3}$/, '') : null`. -/
def baseSerial (serial_number : Option String) : Option String :=
  match serial_number with
  | none => none
  | some s => if s = "" then none else some (String.mk (replaceTrailingDigits3 s.data))

/-- Number of ASCII digits at the end of a string of characters. -/
def trailingDigits (cs : List Char) : Nat :=
  (cs.reverse.takeWhile Char.isDigit).length

/-! ## SQL predicates -/

/-- The SQL `text LIKE pattern` with the default escape character: `%` matches any
run of characters, `_` any one character, a backslash makes the next pattern
character literal. A pattern ending in a lone backslash (an error in the database)
matches nothing. -/
def likeMatch : List Char → List Char → Bool
  | [], t => t.isEmpty
  | c :: p, t =>
    if c = '%' then t.tails.any (likeMatch p)
    else if c = '_' then
      match t with
      | [] => false
      | _ :: ts => likeMatch p ts
    else if c = '\\' then
      match p, t with
      | [], _ => false
      | _ :: _, [] => false
      | c' :: p', x :: ts => x == c' && likeMatch p' ts
    else
      match t with
      | [] => false
      | x :: ts => x == c && likeMatch p ts

/-- The condition `e.serial_number LIKE baseSerial + '%'`; a null serial number
never satisfies it. -/
def serialLike (baseSerial : String) (e : Equipment) : Bool :=
  match e.serial_number with
  | none => false
  | some s => likeMatch (baseSerial.data ++ ['%']) s.data

/-- The join condition of the three availability queries:
`e.id = r.equipment_id AND r.status IN ('pending', 'approved')
 AND r.start_date <= $2 AND r.end_date >= $1`. -/
def joinCond (start_date end_date : Int) (e : Equipment) (r : Reservation) : Bool :=
  e.id == r.equipment_id && (r.status == "pending" || r.status == "approved")
    && decide (r.start_date ≤ end_date) && decide (r.end_date ≥ start_date)

/-- The rows `equipment e LEFT JOIN requests r ON ...` yields for one equipment row:
one per matching reservation, or a single row with a null `r` when none matches. -/
def leftJoinRows (requests : List Reservation) (start_date end_date : Int) (e : Equipment) :
    List (Equipment × Option Reservation) :=
  match requests.filter (joinCond start_date end_date e) with
  | [] => [(e, none)]
  | r :: rs => (r :: rs).map (fun x => (e, some x))

/-- A result row `e.*, CASE WHEN r.id IS NOT NULL THEN true ELSE false END`. -/
structure CheckRow where
  equipment : Equipment
  has_pending_request : Bool
deriving DecidableEq, Repr

/-- The select list of the availability queries applied to a joined row. -/
def toCheckRow (x : Equipment × Option Reservation) : CheckRow :=
  { equipment := x.1, has_pending_request := x.2.isSome }

/-- The key of `ORDER BY e.serial_number`. -/
def serialKey (row : CheckRow) : List Char :=
  match row.equipment.serial_number with
  | none => []
  | some s => s.data

/-- Row order of `ORDER BY e.serial_number` (ascending). -/
def serialLe (a b : CheckRow) : Prop := serialKey a ≤ serialKey b

instance : DecidableRel serialLe := fun a b => by unfold serialLe; exact inferInstance

instance : IsTotal CheckRow serialLe := ⟨fun a b => le_total (serialKey a) (serialKey b)⟩

instance : IsTrans CheckRow serialLe := ⟨fun _ _ _ h1 h2 => le_trans h1 h2⟩

/-! ## Queries -/

/-- The first query of the allocator's loop body: the equipment row with the given
id, left-joined with its blocking reservations that overlap the requested range. -/
def equipmentCheck (db : Db) (start_date end_date : Int) (equipment_id : Nat) :
    List CheckRow :=
  (((db.equipment.flatMap (leftJoinRows db.requests start_date end_date)).filter
      (fun x => x.1.id == equipment_id)).map toCheckRow)

/-- The fleet query shared by the allocator and the next-available route:
`WHERE e.serial_number LIKE $3 AND e.status = 'available' AND r.id IS NULL
 ORDER BY e.serial_number LIMIT 1`, with `$3 = baseSerial + '%'`. -/
def fleetItems (db : Db) (start_date end_date : Int) (baseSerial : String) :
    List CheckRow :=
  ((((db.equipment.flatMap (leftJoinRows db.requests start_date end_date)).filter
      (fun x => serialLike baseSerial x.1 && x.1.status == "available" && x.2.isNone)).map
        toCheckRow).insertionSort serialLe).take 1

/-- The value of `equipmentToRequest` when the loop body reaches
`if (!equipmentToRequest)`: the requested item when it is free, else the first
row of the fleet query, else nothing. -/
def equipmentToRequest (db : Db) (start_date end_date : Int) (equipment_id : Nat) :
    Option Equipment :=
  match equipmentCheck db start_date end_date equipment_id with
  | [] => none
  | equipment :: _ =>
    if equipment.equipment.status = "available" ∧ equipment.has_pending_request = false then
      some equipment.equipment
    else
      match baseSerial equipment.equipment.serial_number with
      | none => none
      | some b =>
        if b = "" then none
        else
          match fleetItems db start_date end_date b with
          | [] => none
          | row :: _ => some row.equipment

/-! ## The request-equipment handler -/

/-- An entry of the `skipped` list. -/
structure Skip where
  equipment_id : Nat
  reason : String
deriving DecidableEq, Repr

/-- An entry of the `requests` list: the inserted row with the equipment details. -/
structure RequestEntry where
  request : Reservation
  equipment : Option Equipment
deriving DecidableEq, Repr

/-- The responses of `POST /lesson-plans/:id/request-equipment`. -/
inductive Response where
  | notFound (error : String)
  | allSkipped (error message : String) (skipped : List Skip)
  | created (requests : List RequestEntry) (skipped : List Skip) (lesson_plan : LessonPlan)
      (message : String)
deriving DecidableEq, Repr

/-- HTTP status code of a response. -/
def Response.status : Response → Nat
  | .notFound _ => 404
  | .allSkipped _ _ _ => 400
  | .created _ _ _ _ => 201

/-- The expression ``notes || `Equipment for lesson: ${title}` ``: absent and empty
notes are both falsy. -/
def notesOrDefault (notes : Option String) (title : String) : String :=
  match notes with
  | none => "Equipment for lesson: " ++ title
  | some n => if n = "" then "Equipment for lesson: " ++ title else n

/-- Modelled from the spec: the declaration of the `requests` table is not among the
sources. Its key is generated by the store (here one more than the largest key in
use) and a new row counts as `pending`, as the ledger invariant of the
specification takes it. -/
def newRequestRow (requests : List Reservation) (user_id equipment_id : Nat)
    (start_date end_date : Int) (notes : String) : Reservation :=
  { id := (requests.map (fun r => r.id)).foldr max 0 + 1
    user_id := user_id
    equipment_id := equipment_id
    start_date := start_date
    end_date := end_date
    status := "pending"
    notes := some notes }

/-- The statement `INSERT INTO requests (user_id, equipment_id, start_date, end_date,
notes) VALUES (...) RETURNING *`: the stored row and the database after it. -/
def insertRequest (db : Db) (user_id equipment_id : Nat) (start_date end_date : Int)
    (notes : String) : Reservation × Db :=
  let row := newRequestRow db.requests user_id equipment_id start_date end_date notes
  (row, { db with requests := db.requests ++ [row] })

/-- What the loop of the handler carries from one requested id to the next. -/
structure LoopState where
  db : Db
  requests : List RequestEntry
  skipped : List Skip
deriving DecidableEq, Repr

/-- One iteration of `for (const equipment_id of equipment_ids)`. -/
def loopBody (user_id : Nat) (start_date end_date : Int) (notes : Option String)
    (lesson : LessonPlan) (st : LoopState) (equipment_id : Nat) : LoopState :=
  match equipmentToRequest st.db start_date end_date equipment_id with
  | none =>
    { st with
      skipped := st.skipped ++
        [{ equipment_id := equipment_id
           reason := "No available items in fleet for this period" }] }
  | some item =>
    let ins := insertRequest st.db user_id item.id start_date end_date
      (notesOrDefault notes lesson.title)
    { db := ins.2
      requests := st.requests ++
        [{ request := ins.1
           equipment := (ins.2.equipment.filter (fun e => e.id == item.id)).head? }]
      skipped := st.skipped }

/-- The whole loop over `equipment_ids`, from empty `requests` and `skipped`. -/
def runLoop (db : Db) (user_id : Nat) (start_date end_date : Int) (notes : Option String)
    (lesson : LessonPlan) (equipment_ids : List Nat) : LoopState :=
  equipment_ids.foldl (loopBody user_id start_date end_date notes lesson)
    { db := db, requests := [], skipped := [] }

/-- The handler of `POST /lesson-plans/:id/request-equipment` for the caller
`user_id`: the response and the database it leaves. -/
def requestEquipment (db : Db) (user_id id : Nat) (equipment_ids : List Nat)
    (start_date end_date : Int) (notes : Option String) : Response × Db :=
  match db.lesson_plans.filter (fun lp => lp.id == id) with
  | [] => (.notFound "Lesson plan not found", db)
  | lesson :: _ =>
    let st := runLoop db user_id start_date end_date notes lesson equipment_ids
    if st.requests.length = 0 ∧ st.skipped.length > 0 then
      (.allSkipped "No more items available"
        "All items in the requested fleets are currently in use or under repair."
        st.skipped, st.db)
    else
      (.created st.requests st.skipped lesson
        (toString st.requests.length ++ " requests created, " ++
          toString st.skipped.length ++ " items skipped"), st.db)

/-! ## The next-available route -/

/-- The responses of `GET /equipment/fleet/:baseSerial/next-available`. -/
inductive NextAvailableResponse where
  | ok (row : CheckRow)
  | notFound (error message : String)
deriving DecidableEq, Repr

/-- HTTP status code of a next-available response. -/
def NextAvailableResponse.status : NextAvailableResponse → Nat
  | .ok _ => 200
  | .notFound _ _ => 404

/-- The handler of `GET /equipment/fleet/:baseSerial/next-available`. -/
def nextAvailable (db : Db) (baseSerial : String) (start_date end_date : Int) :
    NextAvailableResponse :=
  match fleetItems db start_date end_date baseSerial with
  | [] => .notFound "No available items"
      "All items in this fleet are currently in use or under repair."
  | row :: _ => .ok row

/-! ## Callers -/

/-- The value `req.user` the authentication step leaves on the request. The role
check `requireTeacherOrAdmin` in front of a handler is not among the sources; the
handlers below are what runs once a caller is let through. -/
structure User where
  id : Nat
  role : String
  subject_id : Option Nat
deriving DecidableEq, Repr

/-! ## The subject routes -/

/-- The body of `POST /subjects`. -/
structure SubjectInput where
  name : String
  code : String
  description : Option String
  grade_level : Option String
  room : Option String
  teacher_name : Option String
  equipment_fleets : Option (List String)
deriving DecidableEq, Repr

/-- The responses of the subject routes. -/
inductive SubjectResponse where
  | created (row : Subject)
  | deleted (message : String)
  | badRequest (error : String)
  | notFound (error : String)
deriving DecidableEq, Repr

/-- HTTP status code of a subject response. -/
def SubjectResponse.status : SubjectResponse → Nat
  | .created _ => 201
  | .deleted _ => 200
  | .badRequest _ => 400
  | .notFound _ => 404

/-- Modelled from the spec: the declaration of the `subjects` table is not among the
sources. Its `code` column is unique, so the `INSERT` of `POST /subjects` raises the
unique violation `23505` (here `none`) when a stored subject has the same code;
otherwise it stores the row under a generated key and returns it. -/
def insertSubject (db : Db) (b : SubjectInput) : Option (Subject × Db) :=
  if db.subjects.any (fun x => x.code == b.code) then none
  else
    let row : Subject :=
      { id := (db.subjects.map (fun x => x.id)).foldr max 0 + 1
        name := b.name
        code := b.code
        description := b.description
        grade_level := b.grade_level
        room := b.room
        teacher_name := b.teacher_name
        equipment_fleets := some (b.equipment_fleets.getD []) }
    some (row, { db with subjects := db.subjects ++ [row] })

/-- The handler of `POST /subjects`: 201 with the stored row, or 400 when the insert
raises the unique violation. -/
def createSubject (db : Db) (b : SubjectInput) : SubjectResponse × Db :=
  match insertSubject db b with
  | none => (.badRequest "Subject code already exists", db)
  | some ins => (.created ins.1, ins.2)

/-- The handler of `DELETE /subjects/:id`. -/
def deleteSubject (db : Db) (id : Nat) : SubjectResponse × Db :=
  if (db.lesson_plans.filter (fun lp => lp.subject_id == some id)).length > 0 then
    (.badRequest "Cannot delete subject with existing lesson plans. Delete lesson plans first.",
      db)
  else
    let rows := db.subjects.filter (fun x => x.id == id)
    let db' := { db with subjects := db.subjects.filter (fun x => !(x.id == id)) }
    if rows.length = 0 then (.notFound "Subject not found", db')
    else (.deleted "Subject deleted successfully", db')

/-! ## The lesson-plan routes -/

/-- The fields a lesson-plan body or a bulk plan object supplies. -/
structure PlanInput where
  subject_id : Option Nat
  title : String
  description : Option String
  learning_objectives : List String
  lesson_date : Option Int
  duration_minutes : Option Nat
  grade_level : Option String
  required_equipment : Option (List String)
  start_date : Option Int
  end_date : Option Int
deriving DecidableEq, Repr

/-- The responses of the lesson-plan routes. -/
inductive PlanResponse where
  | updated (row : LessonPlan)
  | deleted (message : String)
  | bulkCreated (message : String) (plans : List LessonPlan)
  | badRequest (error : String)
  | notFound (error : String)
  | serverError (error : String)
deriving DecidableEq, Repr

/-- HTTP status code of a lesson-plan response. -/
def PlanResponse.status : PlanResponse → Nat
  | .updated _ => 200
  | .deleted _ => 200
  | .bulkCreated _ _ => 201
  | .badRequest _ => 400
  | .notFound _ => 404
  | .serverError _ => 500

/-- The `SET` list of `PUT /lesson-plans/:id` applied to a stored row. -/
def applyUpdate (lp : LessonPlan) (b : PlanInput) : LessonPlan :=
  { lp with
    subject_id := b.subject_id
    title := b.title
    description := b.description
    learning_objectives := b.learning_objectives
    lesson_date := b.lesson_date
    duration_minutes := b.duration_minutes
    grade_level := b.grade_level
    required_equipment := b.required_equipment.getD []
    start_date := b.start_date
    end_date := b.end_date }

/-- The row condition `WHERE id = $11 AND teacher_id = $12` of the update and of the
delete, with `$12 = req.user.id`. -/
def ownedBy (user : User) (id : Nat) (lp : LessonPlan) : Bool :=
  lp.id == id && lp.teacher_id == user.id

/-- The handler of `PUT /lesson-plans/:id`. -/
def updateLessonPlan (db : Db) (user : User) (id : Nat) (b : PlanInput) :
    PlanResponse × Db :=
  let rows := (db.lesson_plans.filter (ownedBy user id)).map (fun lp => applyUpdate lp b)
  let db' :=
    { db with
      lesson_plans :=
        db.lesson_plans.map (fun lp => if ownedBy user id lp then applyUpdate lp b else lp) }
  match rows with
  | [] => (.notFound "Lesson plan not found or not authorized", db')
  | row :: _ => (.updated row, db')

/-- The handler of `DELETE /lesson-plans/:id`. -/
def deleteLessonPlan (db : Db) (user : User) (id : Nat) : PlanResponse × Db :=
  let rows := db.lesson_plans.filter (ownedBy user id)
  let db' := { db with lesson_plans := db.lesson_plans.filter (fun lp => !(ownedBy user id lp)) }
  match rows with
  | [] => (.notFound "Lesson plan not found or not authorized", db')
  | _ :: _ => (.deleted "Lesson plan deleted successfully", db')

/-- The row the bulk route's `INSERT` builds for one plan object: nine columns are
given, the key is generated and `start_date`, `end_date` are left to the table (null). -/
def bulkPlanRow (plans : List LessonPlan) (user : User) (plan : PlanInput) : LessonPlan :=
  { id := (plans.map (fun lp => lp.id)).foldr max 0 + 1
    teacher_id := user.id
    subject_id := plan.subject_id
    title := plan.title
    description := plan.description
    learning_objectives := plan.learning_objectives
    required_equipment := plan.required_equipment.getD []
    lesson_date := plan.lesson_date
    duration_minutes := plan.duration_minutes
    grade_level := plan.grade_level
    start_date := none
    end_date := none }

/-- An `INSERT INTO lesson_plans ... RETURNING *`: the declaration of the table is
not among the sources, so what it accepts is the parameter `constraints`; a rejected
row makes the query throw (here `none`), an accepted row is stored at once. -/
def insertLessonPlan (constraints : Db → LessonPlan → Bool) (db : Db) (row : LessonPlan) :
    Option (LessonPlan × Db) :=
  if constraints db row then
    some (row, { db with lesson_plans := db.lesson_plans ++ [row] })
  else none

/-- The loop `for (const plan of plans)` of the bulk route: the rows collected in
`results`, or `none` when an insert throws, with the database reached. -/
def bulkLoop (constraints : Db → LessonPlan → Bool) (user : User) :
    List PlanInput → Db → List LessonPlan → Option (List LessonPlan) × Db
  | [], db, results => (some results, db)
  | plan :: rest, db, results =>
    match insertLessonPlan constraints db (bulkPlanRow db.lesson_plans user plan) with
    | none => (none, db)
    | some ins => bulkLoop constraints user rest ins.2 (results ++ [ins.1])

/-- The handler of `POST /lesson-plans/bulk`; `plans` is `none` when the body's
`plans` value is not an array. -/
def bulkCreateLessonPlans (constraints : Db → LessonPlan → Bool) (db : Db) (user : User)
    (plans : Option (List PlanInput)) : PlanResponse × Db :=
  match plans with
  | none => (.badRequest "Plans array is required", db)
  | some [] => (.badRequest "Plans array is required", db)
  | some (plan :: rest) =>
    match bulkLoop constraints user (plan :: rest) db [] with
    | (none, db') => (.serverError "Failed to create lesson plans", db')
    | (some results, db') =>
      (.bulkCreated (toString results.length ++ " lesson plans created successfully")
        results, db')

/-! ## The curriculum fleet summary -/

/-- The SQL expression
`CASE WHEN RIGHT(serial_number, 3) ~ '^[0-9]{3}$'
   THEN LEFT(serial_number, GREATEST(LENGTH(serial_number) - 3, 0))
   ELSE serial_number END` on the characters of a serial number. -/
def sqlBaseSerial (cs : List Char) : List Char :=
  let right3 := cs.drop (cs.length - 3)
  if right3.length = 3 ∧ right3.all (fun c => decide ('0' ≤ c ∧ c ≤ '9')) = true then
    cs.take (max ((cs.length : Int) - 3) 0).toNat
  else cs

/-- The grouping columns `base_serial, name, type`. -/
abbrev FleetKey := String × String × String

/-- A row of the fleets query of `GET /curriculum`. -/
structure FleetRow where
  base_serial : String
  name : String
  type : String
  total_count : Nat
  available_count : Nat
deriving DecidableEq, Repr

/-- The grouping columns of a fleet row. -/
def FleetRow.key (row : FleetRow) : FleetKey := (row.base_serial, row.name, row.type)

/-- The grouping columns of an equipment row; rows with a null serial number are
dropped by `WHERE serial_number IS NOT NULL`. -/
def fleetKey (e : Equipment) : Option FleetKey :=
  match e.serial_number with
  | none => none
  | some s => some (String.mk (sqlBaseSerial s.data), e.name, e.type)

/-- The rows the fleets query groups: the grouping columns and the status of every
equipment row with a serial number. -/
def fleetInput (equipment : List Equipment) : List (FleetKey × String) :=
  equipment.filterMap (fun e => (fleetKey e).map (fun k => (k, e.status)))

/-- Row order of `ORDER BY name` (ascending). -/
def nameLe (a b : FleetRow) : Prop := a.name.data ≤ b.name.data

instance : DecidableRel nameLe := fun a b => by unfold nameLe; exact inferInstance

instance : IsTotal FleetRow nameLe := ⟨fun a b => le_total a.name.data b.name.data⟩

instance : IsTrans FleetRow nameLe := ⟨fun _ _ _ h1 h2 => le_trans h1 h2⟩

/-- The group of one key: `COUNT(*)` and
`COUNT(CASE WHEN status = 'available' THEN 1 END)`. -/
def fleetGroup (input : List (FleetKey × String)) (k : FleetKey) : FleetRow :=
  { base_serial := k.1
    name := k.2.1
    type := k.2.2
    total_count := (input.filter (fun x => decide (x.1 = k))).length
    available_count :=
      (input.filter (fun x => decide (x.1 = k) && x.2 == "available")).length }

/-- The fleets query of `GET /curriculum`:
`GROUP BY base_serial, name, type ORDER BY name`. -/
def fleetsQuery (equipment : List Equipment) : List FleetRow :=
  (((fleetInput equipment).map Prod.fst).dedup.map
    (fleetGroup (fleetInput equipment))).insertionSort nameLe

/-! ## What a response carries -/

/-- The created reservations a response carries; a 404 and a 400 carry none. -/
def Response.requestsList : Response → List RequestEntry
  | .created requests _ _ _ => requests
  | .allSkipped _ _ _ => []
  | .notFound _ => []

/-- The skip entries a response carries; a 404 carries none. -/
def Response.skippedList : Response → List Skip
  | .created _ skipped _ _ => skipped
  | .allSkipped _ _ skipped => skipped
  | .notFound _ => []

/-! ## The single create route and the role check -/

/-- The responses of `POST /lesson-plans`. -/
inductive CreatePlanResponse where
  | created (row : LessonPlan)
  | serverError (error : String)
deriving DecidableEq, Repr

/-- HTTP status code of a create response. -/
def CreatePlanResponse.status : CreatePlanResponse → Nat
  | .created _ => 201
  | .serverError _ => 500

/-- The row the `INSERT` of `POST /lesson-plans` builds from the body: eleven columns
are given, `start_date` and `end_date` among them, and the key is generated. -/
def createPlanRow (plans : List LessonPlan) (user : User) (b : PlanInput) : LessonPlan :=
  { id := (plans.map (fun lp => lp.id)).foldr max 0 + 1
    teacher_id := user.id
    subject_id := b.subject_id
    title := b.title
    description := b.description
    learning_objectives := b.learning_objectives
    required_equipment := b.required_equipment.getD []
    lesson_date := b.lesson_date
    duration_minutes := b.duration_minutes
    grade_level := b.grade_level
    start_date := b.start_date
    end_date := b.end_date }

/-- The handler of `POST /lesson-plans`. -/
def createLessonPlan (constraints : Db → LessonPlan → Bool) (db : Db) (user : User)
    (b : PlanInput) : CreatePlanResponse × Db :=
  match insertLessonPlan constraints db (createPlanRow db.lesson_plans user b) with
  | none => (.serverError "Failed to create lesson plan", db)
  | some ins => (.created ins.1, ins.2)

/-- Modelled from the spec: the role check `requireTeacherOrAdmin` of the middleware
file, which is not among the sources. It lets the request through to the handler when
the caller's role is teacher or admin and rejects it before the handler runs
otherwise. -/
def requireTeacherOrAdmin (user : User) : Bool :=
  user.role == "teacher" || user.role == "admin"

/-- The route `router.delete('/subjects/:id', authenticateToken, requireTeacherOrAdmin,
handler)`: the handler's response, or `none` when the role check rejects the caller. -/
def deleteSubjectRoute (db : Db) (user : User) (id : Nat) : Option SubjectResponse × Db :=
  if requireTeacherOrAdmin user then
    (some (deleteSubject db id).1, (deleteSubject db id).2)
  else (none, db)

/-! ## The curriculum payload -/

/-- A row of the subjects query of `GET /curriculum`: `s.*` and
`COUNT(DISTINCT lp.id) AS lesson_count`. -/
structure SubjectRow where
  subject : Subject
  lesson_count : Nat
deriving DecidableEq, Repr

/-- Row order of `ORDER BY s.name` (ascending). -/
def subjectNameLe (a b : SubjectRow) : Prop := a.subject.name.data ≤ b.subject.name.data

instance : DecidableRel subjectNameLe := fun a b => by unfold subjectNameLe; exact inferInstance

/-- The subjects query of `GET /curriculum`: the subjects grouped by all their
columns, each with the number of distinct lesson plans that reference it. -/
def subjectsQuery (db : Db) : List SubjectRow :=
  (db.subjects.dedup.map (fun x =>
    ({ subject := x
       lesson_count :=
        ((db.lesson_plans.filter (fun lp => lp.subject_id == some x.id)).map
          (fun lp => lp.id)).dedup.length } : SubjectRow))).insertionSort subjectNameLe

/-- An entry of `subjectsWithFleets`. -/
structure SubjectWithFleets where
  subject : Subject
  lesson_count : Nat
  fleet_count : Nat
  total_equipment : Nat
  fleets : List FleetRow
deriving DecidableEq, Repr

/-- The callback of `subjects.rows.map(subject => ...)`. -/
def withFleets (fleets : List FleetRow) (row : SubjectRow) : SubjectWithFleets :=
  let subjectFleets := row.subject.equipment_fleets.getD []
  let matchingFleets := fleets.filter (fun fleet => subjectFleets.contains fleet.base_serial)
  { subject := row.subject
    lesson_count := row.lesson_count
    fleet_count := matchingFleets.length
    total_equipment := matchingFleets.foldl (fun sum fleet => sum + fleet.total_count) 0
    fleets := matchingFleets }

/-- The `summary` object of the curriculum payload. -/
structure CurriculumSummary where
  total_subjects : Nat
  subjects_with_fleets : Nat
  subjects_with_lessons : Nat
  total_equipment_mapped : Nat
deriving DecidableEq, Repr

/-- The payload of `GET /curriculum`. -/
structure CurriculumResponse where
  subjects : List SubjectWithFleets
  summary : CurriculumSummary
deriving DecidableEq, Repr

/-- The payload built from the rows of the two queries. -/
def curriculumResponse (subjects : List SubjectRow) (fleets : List FleetRow) :
    CurriculumResponse :=
  let subjectsWithFleets := subjects.map (withFleets fleets)
  { subjects := subjectsWithFleets
    summary :=
      { total_subjects := subjects.length
        subjects_with_fleets := (subjectsWithFleets.filter (fun x => x.fleet_count > 0)).length
        subjects_with_lessons :=
          (subjectsWithFleets.filter (fun x => x.lesson_count > 0)).length
        total_equipment_mapped :=
          subjectsWithFleets.foldl (fun sum x => sum + x.total_equipment) 0 } }

/-- The handler of `GET /curriculum`. -/
def curriculum (db : Db) : CurriculumResponse :=
  curriculumResponse (subjectsQuery db) (fleetsQuery db.equipment)

/-- The subject lists the fleet row: its `equipment_fleets` holds the row's base serial. -/
def listsFleet (row : SubjectRow) (fleet : FleetRow) : Bool :=
  (row.subject.equipment_fleets.getD []).contains fleet.base_serial

/-! ## Vocabulary of the specification -/

/-- A reservation blocks when its status is pending or approved. -/
def Blocking (r : Reservation) : Prop := r.status = "pending" ∨ r.status = "approved"

/-- The overlap test of a reservation against the requested range:
`existing.start_date <= end_date AND existing.end_date >= start_date`. -/
def Overlaps (start_date end_date : Int) (r : Reservation) : Prop :=
  r.start_date ≤ end_date ∧ r.end_date ≥ start_date

/-- An item is free for a range when no blocking reservation of the ledger on it
overlaps the range. -/
def NoConflict (ledger : List Reservation) (start_date end_date : Int) (e : Equipment) :
    Prop :=
  ∀ r ∈ ledger, r.equipment_id = e.id → Blocking r → ¬ Overlaps start_date end_date r

/-- An item is eligible when it is available and free for the range. -/
def Eligible (ledger : List Reservation) (start_date end_date : Int) (e : Equipment) :
    Prop :=
  e.status = "available" ∧ NoConflict ledger start_date end_date e

/-- The serial number of the item literally starts with the given string. -/
def SerialStartsWith (base : String) (e : Equipment) : Prop :=
  ∃ s, e.serial_number = some s ∧ base.data <+: s.data

/-- Serial-number order between two items, as `ORDER BY serial_number` sees it. -/
def SerialLE (a b : Equipment) : Prop :=
  ∃ sa sb, a.serial_number = some sa ∧ b.serial_number = some sb ∧ sa.data ≤ sb.data

/-- No two blocking reservations of one item overlap: the ledger invariant. -/
def NoDoubleBooking (ledger : List Reservation) : Prop :=
  ledger.Pairwise (fun r1 r2 =>
    r1.equipment_id = r2.equipment_id → Blocking r1 → Blocking r2 →
      ¬ (r1.start_date ≤ r2.end_date ∧ r1.end_date ≥ r2.start_date))

/-- The base serial holds none of the characters `LIKE` gives a meaning to. -/
def PlainSerial (base : String) : Prop :=
  ∀ c ∈ base.data, c ≠ '%' ∧ c ≠ '_' ∧ c ≠ '\\'

/-- The rows of the fleet query before `ORDER BY` and `LIMIT`. -/
def fleetCandidates (db : Db) (start_date end_date : Int) (baseSerial : String) :
    List CheckRow :=
  ((db.equipment.flatMap (leftJoinRows db.requests start_date end_date)).filter
    (fun x => serialLike baseSerial x.1 && x.1.status == "available" && x.2.isNone)).map
      toCheckRow

/-- The row stores the plan object as the bulk route does: the caller as teacher, the
nine supplied columns, and no date range. -/
def StoredFrom (user : User) (plan : PlanInput) (row : LessonPlan) : Prop :=
  row.teacher_id = user.id ∧ row.subject_id = plan.subject_id ∧ row.title = plan.title ∧
    row.description = plan.description ∧
    row.learning_objectives = plan.learning_objectives ∧
    row.required_equipment = plan.required_equipment.getD [] ∧
    row.lesson_date = plan.lesson_date ∧ row.duration_minutes = plan.duration_minutes ∧
    row.grade_level = plan.grade_level ∧ row.start_date = none ∧ row.end_date = none

/-- No reservation of the ledger joins the item for the range: the item's row of the
left join has a null `r`. -/
def isFree (requests : List Reservation) (start_date end_date : Int) (e : Equipment) : Bool :=
  (requests.filter (joinCond start_date end_date e)).isEmpty

/-! ## Scenarios -/

/-- A laptop of the inventory. -/
def laptop (id : Nat) (serial status : String) : Equipment :=
  { id := id, serial_number := some serial, name := "Laptop", type := "laptop",
    status := status }

/-- A lesson plan with id 7. -/
def algebra : LessonPlan :=
  { id := 7, teacher_id := 1, subject_id := none, title := "Algebra", description := none,
    learning_objectives := [], required_equipment := [], lesson_date := none,
    duration_minutes := none, grade_level := none, start_date := none, end_date := none }

/-- The scenario of the specification: `LAP001` checked out, `LAP002` and `LAP003`
available, an empty ledger. -/
def lapDb : Db :=
  { subjects := [], lesson_plans := [algebra],
    equipment := [laptop 1 "LAP001" "checked_out", laptop 2 "LAP002" "available",
      laptop 3 "LAP003" "available"],
    requests := [] }

/-- Two items whose serial numbers are three digits, the first one checked out. -/
def digitsDb : Db :=
  { subjects := [], lesson_plans := [algebra],
    equipment := [laptop 1 "001" "checked_out", laptop 2 "002" "available"],
    requests := [] }

/-- Two available laptops, the requested `LAP001` and `LAP000` of smaller serial. -/
def pairDb : Db :=
  { subjects := [], lesson_plans := [algebra],
    equipment := [laptop 4 "LAP000" "available", laptop 1 "LAP001" "available"],
    requests := [] }

/-- The scenario of the specification with `LAP002` booked, approved, for days 1 to 5. -/
def bookedDb : Db :=
  { lapDb with
    requests := [{ id := 1, user_id := 9, equipment_id := 2, start_date := 1, end_date := 5,
                   status := "approved", notes := none }] }

/-- A checked-out item whose serial number holds an underscore, and an available item
whose serial number differs from it in that position. -/
def wildDb : Db :=
  { subjects := [], lesson_plans := [algebra],
    equipment := [laptop 1 "A_1" "checked_out", laptop 2 "AB1" "available"],
    requests := [] }

/-- A teacher, the creator of the lesson plan `algebra`. -/
def teacherOne : User := { id := 1, role := "teacher", subject_id := none }

/-- Another teacher. -/
def teacherTwo : User := { id := 2, role := "teacher", subject_id := none }

/-- An admin who created no lesson plan. -/
def adminUser : User := { id := 3, role := "admin", subject_id := none }

/-- A subject with id 5 and code `MATH`. -/
def mathSubject : Subject :=
  { id := 5, name := "Mathematics", code := "MATH", description := none,
    grade_level := none, room := none, teacher_name := none, equipment_fleets := some ["LAP"] }

/-- The subject `MATH` and a lesson plan of teacher 1 that references it. -/
def schoolDb : Db :=
  { subjects := [mathSubject],
    lesson_plans := [{ algebra with subject_id := some 5 }],
    equipment := [laptop 1 "LAP001" "checked_out", laptop 2 "LAP002" "available",
      laptop 3 "LAPTOP9" "available"],
    requests := [] }

/-- A plan object with the given title. -/
def planTitled (title : String) : PlanInput :=
  { subject_id := none, title := title, description := none, learning_objectives := [],
    lesson_date := none, duration_minutes := none, grade_level := none,
    required_equipment := none, start_date := some 1, end_date := some 5 }

/-- A table constraint: the title is not empty. -/
def titleRequired (_ : Db) (row : LessonPlan) : Bool := row.title != ""

/-- The checked-out `LAP001` and, of another fleet, the available `LAPTOP001`. -/
def mixedDb : Db :=
  { subjects := [], lesson_plans := [algebra],
    equipment := [laptop 1 "LAP001" "checked_out", laptop 2 "LAPTOP001" "available"],
    requests := [] }

/-- A checked-out item whose serial number holds a percent sign, and an available item
whose serial number does not start with it. -/
def percentDb : Db :=
  { subjects := [], lesson_plans := [algebra],
    equipment := [laptop 1 "A%B" "checked_out", laptop 2 "AXYB7" "available"],
    requests := [] }

/-- A subject that no lesson plan references. -/
def idleDb : Db :=
  { subjects := [mathSubject], lesson_plans := [algebra], equipment := [], requests := [] }

/-- A second subject, with id 6, that lists the fleet `LAP` too. -/
def physicsSubject : Subject :=
  { id := 6, name := "Physics", code := "PHYS", description := none, grade_level := none,
    room := none, teacher_name := none, equipment_fleets := some ["LAP", "TAB"] }

/-- A fleet row of three laptops. -/
def lapFleet : FleetRow :=
  { base_serial := "LAP", name := "Laptop", type := "laptop", total_count := 3,
    available_count := 2 }

/-- The inventory of the specification's scenario in another row order, with a
ledger of two reservations that do not block. -/
def shuffledDb : Db :=
  { subjects := [], lesson_plans := [algebra],
    equipment := [laptop 3 "LAP003" "available", laptop 2 "LAP002" "available",
      laptop 1 "LAP001" "checked_out"],
    requests := [] }

/-- Three checked-out items: one without a serial number, one with the empty serial
number, one whose serial number is three digits; and an available laptop. -/
def baselessDb : Db :=
  { subjects := [], lesson_plans := [algebra],
    equipment :=
      [{ id := 1, serial_number := none, name := "Cable", type := "cable",
         status := "checked_out" },
       laptop 2 "" "checked_out", laptop 3 "123" "checked_out",
       laptop 4 "124" "available"],
    requests := [] }

/-- The row the bulk route stores first for the plan titled `Sets`. -/
def setsRow : LessonPlan := bulkPlanRow schoolDb.lesson_plans teacherOne (planTitled "Sets")

/-- The row the bulk route stores next for the plan titled `Groups`. -/
def groupsRow : LessonPlan :=
  bulkPlanRow (schoolDb.lesson_plans ++ [setsRow]) teacherOne (planTitled "Groups")

/-! ## Lemmas on the join -/

theorem joinCond_iff (s e : Int) (x : Equipment) (r : Reservation) :
    joinCond s e x r = true ↔ r.equipment_id = x.id ∧ Blocking r ∧ Overlaps s e r := by
  simp only [joinCond, Blocking, Overlaps, Bool.and_eq_true, Bool.or_eq_true, beq_iff_eq,
    decide_eq_true_eq, and_assoc, ge_iff_le]
  constructor
  · rintro ⟨h1, h2, h3, h4⟩
    exact ⟨h1.symm, h2, h3, h4⟩
  · rintro ⟨h1, h2, h3, h4⟩
    exact ⟨h1.symm, h2, h3, h4⟩

theorem filter_joinCond_eq_nil (reqs : List Reservation) (s e : Int) (x : Equipment) :
    reqs.filter (joinCond s e x) = [] ↔ NoConflict reqs s e x := by
  rw [List.filter_eq_nil_iff]
  constructor
  · intro h r hr hid hb hov
    exact h r hr ((joinCond_iff s e x r).2 ⟨hid, hb, hov⟩)
  · intro h r hr hj
    obtain ⟨hid, hb, hov⟩ := (joinCond_iff s e x r).1 hj
    exact h r hr hid hb hov

theorem leftJoinRows_of_noConflict (reqs : List Reservation) (s e : Int) (x : Equipment)
    (h : NoConflict reqs s e x) : leftJoinRows reqs s e x = [(x, none)] := by
  unfold leftJoinRows
  rw [(filter_joinCond_eq_nil reqs s e x).2 h]

theorem mem_leftJoinRows (reqs : List Reservation) (s e : Int) (x : Equipment)
    (y : Equipment × Option Reservation) (hy : y ∈ leftJoinRows reqs s e x) :
    y.1 = x ∧ (y.2.isSome = false ↔ NoConflict reqs s e x) := by
  unfold leftJoinRows at hy
  cases hf : reqs.filter (joinCond s e x) with
  | nil =>
    rw [hf] at hy
    simp only [List.mem_singleton] at hy
    subst hy
    exact ⟨rfl, by simp [(filter_joinCond_eq_nil reqs s e x).1 hf]⟩
  | cons r rs =>
    rw [hf] at hy
    simp only [List.mem_map] at hy
    obtain ⟨z, _, rfl⟩ := hy
    refine ⟨rfl, ?_⟩
    constructor
    · intro h
      simp at h
    · intro h
      rw [(filter_joinCond_eq_nil reqs s e x).2 h] at hf
      exact absurd hf (by simp)

theorem leftJoinRows_head (reqs : List Reservation) (s e : Int) (x : Equipment) :
    ∃ o rest, leftJoinRows reqs s e x = (x, o) :: rest := by
  unfold leftJoinRows
  cases reqs.filter (joinCond s e x) with
  | nil => exact ⟨none, [], rfl⟩
  | cons r rs => exact ⟨some r, rs.map (fun z => (x, some z)), rfl⟩

/-! ## Lemmas on the first query -/

theorem mem_equipmentCheck (db : Db) (s e : Int) (id : Nat) (row : CheckRow)
    (h : row ∈ equipmentCheck db s e id) :
    row.equipment ∈ db.equipment ∧ row.equipment.id = id ∧
      (row.has_pending_request = false ↔ NoConflict db.requests s e row.equipment) := by
  unfold equipmentCheck at h
  simp only [List.mem_map, List.mem_filter, List.mem_flatMap, beq_iff_eq] at h
  obtain ⟨y, ⟨⟨x, hx, hy⟩, hid⟩, rfl⟩ := h
  obtain ⟨h1, h2⟩ := mem_leftJoinRows db.requests s e x y hy
  simp only [toCheckRow]
  rw [h1]
  exact ⟨hx, by rw [← h1]; exact hid, h2⟩

theorem equipmentCheck_aux (reqs : List Reservation) (s e : Int) (id : Nat) :
    ∀ (l : List Equipment) (item : Equipment),
      l.find? (fun x => x.id == id) = some item →
      ∃ o rest, (((l.flatMap (leftJoinRows reqs s e)).filter
        (fun x => x.1.id == id)).map toCheckRow) = toCheckRow (item, o) :: rest ∧
        (item, o) ∈ leftJoinRows reqs s e item := by
  intro l
  induction l with
  | nil => intro item h; simp at h
  | cons x l ih =>
    intro item h
    rw [List.find?_cons] at h
    have hall : ∀ y ∈ leftJoinRows reqs s e x, y.1 = x :=
      fun y hy => (mem_leftJoinRows reqs s e x y hy).1
    by_cases hx : (x.id == id) = true
    · rw [hx] at h
      simp only [Option.some.injEq] at h
      subst h
      obtain ⟨o, rest, ho⟩ := leftJoinRows_head reqs s e x
      have hfil : (leftJoinRows reqs s e x).filter (fun y => y.1.id == id) =
          leftJoinRows reqs s e x := by
        rw [List.filter_eq_self]
        intro y hy
        rw [hall y hy]
        exact hx
      refine ⟨o, (rest ++ (l.flatMap (leftJoinRows reqs s e)).filter
        (fun y => y.1.id == id)).map toCheckRow, ?_, ?_⟩
      · rw [List.flatMap_cons, List.filter_append, hfil, ho]
        rfl
      · rw [ho]
        exact List.mem_cons_self _ _
    · have hx' : (x.id == id) = false := by simpa using hx
      rw [hx'] at h
      obtain ⟨o, rest, h1, h2⟩ := ih item h
      have hfil : (leftJoinRows reqs s e x).filter (fun y => y.1.id == id) = [] := by
        rw [List.filter_eq_nil_iff]
        intro y hy
        rw [hall y hy]
        simpa using hx
      refine ⟨o, rest, ?_, h2⟩
      rw [List.flatMap_cons, List.filter_append, hfil, List.nil_append]
      exact h1

theorem equipmentCheck_of_find (db : Db) (s e : Int) (id : Nat) (item : Equipment)
    (h : db.equipment.find? (fun x => x.id == id) = some item) :
    ∃ row rest, equipmentCheck db s e id = row :: rest ∧ row.equipment = item ∧
      (row.has_pending_request = false ↔ NoConflict db.requests s e item) := by
  obtain ⟨o, rest, h1, h2⟩ := equipmentCheck_aux db.requests s e id db.equipment item h
  refine ⟨toCheckRow (item, o), rest, h1, rfl, ?_⟩
  exact (mem_leftJoinRows db.requests s e item (item, o) h2).2

theorem equipmentCheck_eq_nil (db : Db) (s e : Int) (id : Nat)
    (h : ∀ x ∈ db.equipment, x.id ≠ id) : equipmentCheck db s e id = [] := by
  cases hc : equipmentCheck db s e id with
  | nil => rfl
  | cons row rest =>
    have hm : row ∈ equipmentCheck db s e id := by rw [hc]; exact List.mem_cons_self _ _
    obtain ⟨h1, h2, _⟩ := mem_equipmentCheck db s e id row hm
    exact absurd h2 (h _ h1)

/-! ## Lemmas on the fleet query -/

theorem fleetItems_eq (db : Db) (s e : Int) (b : String) :
    fleetItems db s e b = ((fleetCandidates db s e b).insertionSort serialLe).take 1 := rfl

theorem mem_fleetCandidates (db : Db) (s e : Int) (b : String) (row : CheckRow) :
    row ∈ fleetCandidates db s e b ↔
      row.has_pending_request = false ∧ row.equipment ∈ db.equipment ∧
        serialLike b row.equipment = true ∧ Eligible db.requests s e row.equipment := by
  unfold fleetCandidates
  simp only [List.mem_map, List.mem_filter, List.mem_flatMap, Bool.and_eq_true, beq_iff_eq]
  constructor
  · rintro ⟨y, ⟨⟨x, hx, hy⟩, ⟨hl, hs⟩, hn⟩, rfl⟩
    obtain ⟨h1, h2⟩ := mem_leftJoinRows db.requests s e x y hy
    have hn' : y.2.isSome = false := by
      cases hy2 : y.2 with
      | none => rfl
      | some r => rw [hy2] at hn; simp at hn
    simp only [toCheckRow]
    refine ⟨hn', ?_, hl, hs, ?_⟩
    · rw [h1]; exact hx
    · rw [h1]; exact h2.1 hn'
  · rintro ⟨h1, h2, h3, h4, h5⟩
    refine ⟨(row.equipment, none), ⟨⟨row.equipment, h2, ?_⟩, ⟨h3, h4⟩, rfl⟩, ?_⟩
    · rw [leftJoinRows_of_noConflict _ _ _ _ h5]
      exact List.mem_singleton_self _
    · cases row with
      | mk eq hp =>
        simp only at h1
        simp [toCheckRow, h1]

theorem fleetItems_cons (db : Db) (s e : Int) (b : String) (row : CheckRow)
    (rest : List CheckRow) (h : fleetItems db s e b = row :: rest) :
    rest = [] ∧ row ∈ fleetCandidates db s e b ∧
      ∀ c ∈ fleetCandidates db s e b, serialLe row c := by
  rw [fleetItems_eq] at h
  have hperm := List.perm_insertionSort serialLe (fleetCandidates db s e b)
  have hsorted := List.sorted_insertionSort serialLe (fleetCandidates db s e b)
  cases hL : (fleetCandidates db s e b).insertionSort serialLe with
  | nil => rw [hL] at h; simp at h
  | cons a l =>
    rw [hL] at h hperm hsorted
    simp only [List.take_succ_cons, List.take_zero, List.cons.injEq] at h
    obtain ⟨rfl, hrest⟩ := h
    refine ⟨hrest.symm, hperm.subset (List.mem_cons_self _ _), ?_⟩
    intro c hc
    have hc' : c ∈ a :: l := hperm.symm.subset hc
    rcases List.mem_cons.1 hc' with rfl | hcl
    · exact le_refl (serialKey c)
    · exact List.rel_of_sorted_cons hsorted c hcl

theorem fleetItems_eq_nil (db : Db) (s e : Int) (b : String) :
    fleetItems db s e b = [] ↔ fleetCandidates db s e b = [] := by
  rw [fleetItems_eq]
  have hperm := List.perm_insertionSort serialLe (fleetCandidates db s e b)
  constructor
  · intro h
    cases hL : (fleetCandidates db s e b).insertionSort serialLe with
    | nil => rw [hL] at hperm; exact hperm.symm.eq_nil
    | cons a l => rw [hL] at h; simp at h
  · intro h
    rw [h]
    rfl

theorem likeMatch_nil (t : List Char) : likeMatch [] t = t.isEmpty := rfl

theorem likeMatch_cons (c : Char) (p t : List Char) :
    likeMatch (c :: p) t =
      if c = '%' then t.tails.any (likeMatch p)
      else if c = '_' then
        match t with
        | [] => false
        | _ :: ts => likeMatch p ts
      else if c = '\\' then
        match p, t with
        | [], _ => false
        | _ :: _, [] => false
        | c' :: p', x :: ts => x == c' && likeMatch p' ts
      else
        match t with
        | [] => false
        | x :: ts => x == c && likeMatch p ts := by
  cases p <;> cases t <;> rfl

theorem likeMatch_percent (p t : List Char) :
    likeMatch ('%' :: p) t = t.tails.any (likeMatch p) := by
  rw [likeMatch_cons]
  exact if_pos rfl

theorem likeMatch_literal (c : Char) (p t : List Char)
    (hc : c ≠ '%' ∧ c ≠ '_' ∧ c ≠ '\\') :
    likeMatch (c :: p) t =
      match t with
      | [] => false
      | x :: ts => x == c && likeMatch p ts := by
  rw [likeMatch_cons, if_neg hc.1, if_neg hc.2.1, if_neg hc.2.2]

/-- What `LIKE baseSerial + '%'` amounts to when the base serial is plain text. -/
theorem likeMatch_plain (base t : List Char)
    (hplain : ∀ c ∈ base, c ≠ '%' ∧ c ≠ '_' ∧ c ≠ '\\') :
    likeMatch (base ++ ['%']) t = true ↔ base <+: t := by
  induction base generalizing t with
  | nil =>
    rw [List.nil_append, likeMatch_percent, List.any_eq_true]
    refine ⟨fun _ => List.nil_prefix, fun _ => ⟨[], ?_, ?_⟩⟩
    · exact (List.mem_tails [] t).2 List.nil_suffix
    · rw [likeMatch_nil]; rfl
  | cons c base ih =>
    have hc := hplain c (List.mem_cons_self _ _)
    have hrest : ∀ d ∈ base, d ≠ '%' ∧ d ≠ '_' ∧ d ≠ '\\' :=
      fun d hd => hplain d (List.mem_cons_of_mem _ hd)
    rw [List.cons_append, likeMatch_literal c _ t hc]
    cases t with
    | nil =>
      constructor
      · intro h; exact absurd h Bool.false_ne_true
      · intro h; exact absurd (List.eq_nil_of_prefix_nil h) (by intro h'; cases h')
    | cons x ts =>
      show (x == c && likeMatch (base ++ ['%']) ts) = true ↔ _
      rw [Bool.and_eq_true, beq_iff_eq, ih ts hrest]
      constructor
      · rintro ⟨rfl, h⟩
        exact (List.cons_prefix_cons).2 ⟨rfl, h⟩
      · intro h
        obtain ⟨h1, h2⟩ := (List.cons_prefix_cons).1 h
        exact ⟨h1.symm, h2⟩

theorem serialLike_plain (b : String) (hb : PlainSerial b) (x : Equipment) :
    serialLike b x = true ↔ SerialStartsWith b x := by
  unfold serialLike SerialStartsWith
  cases hs : x.serial_number with
  | none => simp
  | some t =>
    simp only [Option.some.injEq, exists_eq_left']
    exact likeMatch_plain b.data t.data hb

/-! ## Lemmas on the resolution of one requested id -/

theorem takeWhile_length_three (p : Char → Bool) (r : List Char) :
    3 ≤ (r.takeWhile p).length ↔ 3 ≤ r.length ∧ (r.take 3).all p = true := by
  rcases r with _ | ⟨a, _ | ⟨b, _ | ⟨c, r⟩⟩⟩
  · simp
  · simp [List.takeWhile_cons]; split <;> simp
  · simp [List.takeWhile_cons]; split <;> simp; split <;> simp
  · simp only [List.takeWhile_cons, List.take_succ_cons, List.take_zero, List.all_cons,
      List.all_nil, List.length_cons]
    cases p a <;> cases p b <;> cases p c <;> simp

theorem replaceTrailingDigits3_cond (cs : List Char) :
    (3 ≤ cs.length ∧ (cs.drop (cs.length - 3)).all Char.isDigit = true) ↔
      3 ≤ trailingDigits cs := by
  unfold trailingDigits
  rw [takeWhile_length_three, List.take_reverse, List.all_reverse, List.length_reverse]

theorem equipmentToRequest_eligible (db : Db) (s e : Int) (id : Nat) (item : Equipment)
    (h : equipmentToRequest db s e id = some item) :
    item ∈ db.equipment ∧ Eligible db.requests s e item := by
  unfold equipmentToRequest at h
  cases hc : equipmentCheck db s e id with
  | nil => rw [hc] at h; simp at h
  | cons row rest =>
    rw [hc] at h
    simp only at h
    have hm : row ∈ equipmentCheck db s e id := by rw [hc]; exact List.mem_cons_self _ _
    obtain ⟨h1, _, h3⟩ := mem_equipmentCheck db s e id row hm
    split at h
    · rename_i hfree
      simp only [Option.some.injEq] at h
      subst h
      exact ⟨h1, hfree.1, h3.1 hfree.2⟩
    · cases hb : baseSerial row.equipment.serial_number with
      | none => rw [hb] at h; simp at h
      | some b =>
        rw [hb] at h
        simp only at h
        split at h
        · simp at h
        · cases hf : fleetItems db s e b with
          | nil => rw [hf] at h; simp at h
          | cons r rs =>
            rw [hf] at h
            simp only [Option.some.injEq] at h
            subst h
            obtain ⟨_, hmem, _⟩ := fleetItems_cons db s e b r rs hf
            obtain ⟨_, h5, _, h7⟩ := (mem_fleetCandidates db s e b r).1 hmem
            exact ⟨h5, h7⟩

theorem equipmentToRequest_direct (db : Db) (s e : Int) (id : Nat) (item : Equipment)
    (hfind : db.equipment.find? (fun x => x.id == id) = some item)
    (helig : Eligible db.requests s e item) :
    equipmentToRequest db s e id = some item := by
  obtain ⟨row, rest, h1, h2, h3⟩ := equipmentCheck_of_find db s e id item hfind
  unfold equipmentToRequest
  rw [h1]
  simp only
  rw [if_pos ⟨by rw [h2]; exact helig.1, h3.2 helig.2⟩, h2]

/-! ## Lemmas on the loop -/

theorem loopBody_noDoubleBooking (user_id : Nat) (s e : Int) (notes : Option String)
    (lesson : LessonPlan) (st : LoopState) (id : Nat)
    (h : NoDoubleBooking st.db.requests) :
    NoDoubleBooking (loopBody user_id s e notes lesson st id).db.requests := by
  unfold loopBody
  cases hres : equipmentToRequest st.db s e id with
  | none => exact h
  | some item =>
    obtain ⟨_, _, hfree⟩ := equipmentToRequest_eligible st.db s e id item hres
    show NoDoubleBooking (st.db.requests ++
      [newRequestRow st.db.requests user_id item.id s e (notesOrDefault notes lesson.title)])
    unfold NoDoubleBooking
    rw [List.pairwise_append]
    refine ⟨h, List.pairwise_singleton _ _, ?_⟩
    intro a ha b hb hid hba _
    rw [List.mem_singleton] at hb
    subst hb
    exact hfree a ha hid hba

theorem foldl_loopBody_noDoubleBooking (user_id : Nat) (s e : Int) (notes : Option String)
    (lesson : LessonPlan) (ids : List Nat) :
    ∀ st : LoopState, NoDoubleBooking st.db.requests →
      NoDoubleBooking
        (ids.foldl (loopBody user_id s e notes lesson) st).db.requests := by
  induction ids with
  | nil => intro st h; exact h
  | cons i ids ih =>
    intro st h
    exact ih _ (loopBody_noDoubleBooking user_id s e notes lesson st i h)

theorem loopBody_count (user_id : Nat) (s e : Int) (notes : Option String)
    (lesson : LessonPlan) (st : LoopState) (id : Nat) :
    (loopBody user_id s e notes lesson st id).requests.length +
        (loopBody user_id s e notes lesson st id).skipped.length =
      st.requests.length + st.skipped.length + 1 := by
  unfold loopBody
  cases equipmentToRequest st.db s e id with
  | none => simp only [List.length_append, List.length_singleton]; omega
  | some item => simp only [List.length_append, List.length_singleton]; omega

theorem foldl_loopBody_count (user_id : Nat) (s e : Int) (notes : Option String)
    (lesson : LessonPlan) (ids : List Nat) :
    ∀ st : LoopState,
      (ids.foldl (loopBody user_id s e notes lesson) st).requests.length +
          (ids.foldl (loopBody user_id s e notes lesson) st).skipped.length =
        st.requests.length + st.skipped.length + ids.length := by
  induction ids with
  | nil => intro st; rfl
  | cons i ids ih =>
    intro st
    rw [List.foldl_cons, ih, loopBody_count, List.length_cons]
    omega

theorem runLoop_count (db : Db) (user_id : Nat) (s e : Int) (notes : Option String)
    (lesson : LessonPlan) (ids : List Nat) :
    (runLoop db user_id s e notes lesson ids).requests.length +
        (runLoop db user_id s e notes lesson ids).skipped.length = ids.length := by
  unfold runLoop
  rw [foldl_loopBody_count]
  simp

theorem requestEquipment_of_lesson (db : Db) (user_id id : Nat) (ids : List Nat)
    (s e : Int) (notes : Option String) (lesson : LessonPlan) (rest : List LessonPlan)
    (hlesson : db.lesson_plans.filter (fun lp => lp.id == id) = lesson :: rest) :
    requestEquipment db user_id id ids s e notes =
      if (runLoop db user_id s e notes lesson ids).requests.length = 0 ∧
          (runLoop db user_id s e notes lesson ids).skipped.length > 0 then
        (.allSkipped "No more items available"
          "All items in the requested fleets are currently in use or under repair."
          (runLoop db user_id s e notes lesson ids).skipped,
          (runLoop db user_id s e notes lesson ids).db)
      else
        (.created (runLoop db user_id s e notes lesson ids).requests
          (runLoop db user_id s e notes lesson ids).skipped lesson
          (toString (runLoop db user_id s e notes lesson ids).requests.length ++
            " requests created, " ++
            toString (runLoop db user_id s e notes lesson ids).skipped.length ++
            " items skipped"),
          (runLoop db user_id s e notes lesson ids).db) := by
  unfold requestEquipment
  rw [hlesson]

theorem requestEquipment_of_no_lesson (db : Db) (user_id id : Nat) (ids : List Nat)
    (s e : Int) (notes : Option String)
    (h : db.lesson_plans.filter (fun lp => lp.id == id) = []) :
    requestEquipment db user_id id ids s e notes = (.notFound "Lesson plan not found", db) := by
  unfold requestEquipment
  rw [h]

theorem loopBody_skip (user_id : Nat) (s e : Int) (notes : Option String)
    (lesson : LessonPlan) (st : LoopState) (id : Nat)
    (h : equipmentToRequest st.db s e id = none) :
    (loopBody user_id s e notes lesson st id).db = st.db ∧
      (loopBody user_id s e notes lesson st id).requests = st.requests ∧
      (loopBody user_id s e notes lesson st id).skipped = st.skipped ++
        [{ equipment_id := id, reason := "No available items in fleet for this period" }] := by
  unfold loopBody
  rw [h]
  exact ⟨rfl, rfl, rfl⟩

/-! ## Lemmas on the lesson-plan routes -/

theorem ownedBy_iff (user : User) (id : Nat) (lp : LessonPlan) :
    ownedBy user id lp = true ↔ lp.id = id ∧ lp.teacher_id = user.id := by
  simp [ownedBy]

theorem filter_ownedBy_eq_nil (db : Db) (user : User) (id : Nat)
    (h : ∀ lp ∈ db.lesson_plans, lp.id = id → lp.teacher_id ≠ user.id) :
    db.lesson_plans.filter (ownedBy user id) = [] := by
  rw [List.filter_eq_nil_iff]
  intro lp hlp hown
  obtain ⟨h1, h2⟩ := (ownedBy_iff user id lp).1 hown
  exact h lp hlp h1 h2

theorem bulkLoop_cons (constraints : Db → LessonPlan → Bool) (user : User)
    (plan : PlanInput) (rest : List PlanInput) (db : Db) (results : List LessonPlan) :
    bulkLoop constraints user (plan :: rest) db results =
      match insertLessonPlan constraints db (bulkPlanRow db.lesson_plans user plan) with
      | none => (none, db)
      | some ins => bulkLoop constraints user rest ins.2 (results ++ [ins.1]) := rfl

theorem bulkLoop_append (constraints : Db → LessonPlan → Bool) (user : User)
    (pre rest : List PlanInput) :
    ∀ (db : Db) (results : List LessonPlan),
      bulkLoop constraints user (pre ++ rest) db results =
        match bulkLoop constraints user pre db results with
        | (none, db') => (none, db')
        | (some rows, db') => bulkLoop constraints user rest db' rows := by
  induction pre with
  | nil => intro db results; rfl
  | cons p pre ih =>
    intro db results
    rw [List.cons_append, bulkLoop_cons, bulkLoop_cons]
    cases insertLessonPlan constraints db (bulkPlanRow db.lesson_plans user p) with
    | none => rfl
    | some ins => exact ih ins.2 (results ++ [ins.1])

theorem bulkLoop_success (constraints : Db → LessonPlan → Bool) (user : User)
    (plans : List PlanInput) :
    ∀ (db : Db) (results rows : List LessonPlan) (db' : Db),
      bulkLoop constraints user plans db results = (some rows, db') →
      ∃ new : List LessonPlan, rows = results ++ new ∧
        db'.lesson_plans = db.lesson_plans ++ new ∧
        db'.subjects = db.subjects ∧ db'.equipment = db.equipment ∧
        db'.requests = db.requests ∧
        new.map (fun lp => lp.title) = plans.map (fun plan => plan.title) ∧
        ∀ lp ∈ new, lp.teacher_id = user.id := by
  induction plans with
  | nil =>
    intro db results rows db' h
    unfold bulkLoop at h
    simp only [Prod.mk.injEq, Option.some.injEq] at h
    obtain ⟨rfl, rfl⟩ := h
    exact ⟨[], by simp, by simp, rfl, rfl, rfl, rfl, by simp⟩
  | cons p plans ih =>
    intro db results rows db' h
    rw [bulkLoop_cons] at h
    unfold insertLessonPlan at h
    by_cases hc : constraints db (bulkPlanRow db.lesson_plans user p) = true
    · rw [if_pos hc] at h
      obtain ⟨new, h1, h2, h3, h4, h5, h6, h7⟩ := ih _ _ rows db' h
      refine ⟨bulkPlanRow db.lesson_plans user p :: new, ?_, ?_, h3, h4, h5, ?_, ?_⟩
      · rw [h1]; simp
      · rw [h2]; simp
      · simp only [List.map_cons, h6]
        rfl
      · intro lp hlp
        rcases List.mem_cons.1 hlp with rfl | hmem
        · rfl
        · exact h7 lp hmem
    · rw [if_neg hc] at h
      simp at h

theorem bulkCreate_cons (constraints : Db → LessonPlan → Bool) (db : Db) (user : User)
    (plans : List PlanInput) (hne : plans ≠ []) :
    bulkCreateLessonPlans constraints db user (some plans) =
      match bulkLoop constraints user plans db [] with
      | (none, db') => (.serverError "Failed to create lesson plans", db')
      | (some results, db') =>
        (.bulkCreated (toString results.length ++ " lesson plans created successfully")
          results, db') := by
  cases plans with
  | nil => exact absurd rfl hne
  | cons plan rest => rfl

theorem updateLessonPlan_not_owner (db : Db) (user : User) (id : Nat) (b : PlanInput)
    (h : ∀ lp ∈ db.lesson_plans, lp.id = id → lp.teacher_id ≠ user.id) :
    updateLessonPlan db user id b =
      (.notFound "Lesson plan not found or not authorized", db) := by
  have hmap : db.lesson_plans.map
      (fun lp => if ownedBy user id lp then applyUpdate lp b else lp) = db.lesson_plans := by
    conv_rhs => rw [← List.map_id db.lesson_plans]
    apply List.map_congr_left
    intro lp hlp
    have hno : ¬ ownedBy user id lp = true := fun hown =>
      h lp hlp ((ownedBy_iff user id lp).1 hown).1 ((ownedBy_iff user id lp).1 hown).2
    rw [if_neg hno]
    rfl
  unfold updateLessonPlan
  simp only [filter_ownedBy_eq_nil db user id h, List.map_nil, hmap]

theorem deleteLessonPlan_not_owner (db : Db) (user : User) (id : Nat)
    (h : ∀ lp ∈ db.lesson_plans, lp.id = id → lp.teacher_id ≠ user.id) :
    deleteLessonPlan db user id =
      (.notFound "Lesson plan not found or not authorized", db) := by
  have hfil : db.lesson_plans.filter (fun lp => !(ownedBy user id lp)) = db.lesson_plans := by
    rw [List.filter_eq_self]
    intro lp hlp
    have hno : ¬ ownedBy user id lp = true := fun hown =>
      h lp hlp ((ownedBy_iff user id lp).1 hown).1 ((ownedBy_iff user id lp).1 hown).2
    simpa using hno
  unfold deleteLessonPlan
  simp only [filter_ownedBy_eq_nil db user id h, hfil]

theorem filter_ownedBy_head (db : Db) (user : User) (id : Nat) (plan : LessonPlan)
    (hplan : plan ∈ db.lesson_plans) (hid : plan.id = id)
    (hkey : ∀ lp ∈ db.lesson_plans, lp.id = id → lp = plan)
    (hown : plan.teacher_id = user.id) :
    ∃ rest, db.lesson_plans.filter (ownedBy user id) = plan :: rest := by
  have hmem : plan ∈ db.lesson_plans.filter (ownedBy user id) :=
    List.mem_filter.2 ⟨hplan, (ownedBy_iff user id plan).2 ⟨hid, hown⟩⟩
  cases hf : db.lesson_plans.filter (ownedBy user id) with
  | nil => rw [hf] at hmem; exact absurd hmem (List.not_mem_nil _)
  | cons x rest =>
    have hx : x ∈ db.lesson_plans.filter (ownedBy user id) := by
      rw [hf]; exact List.mem_cons_self _ _
    obtain ⟨hx1, hx2⟩ := List.mem_filter.1 hx
    have hxp : x = plan := hkey x hx1 ((ownedBy_iff user id x).1 hx2).1
    exact ⟨rest, by rw [hxp]⟩

/-! ## Lemmas on the fleet summary -/

theorem fleetInput_filter_length (equipment : List Equipment) (q : FleetKey × String → Bool) :
    ((fleetInput equipment).filter q).length =
      equipment.countP (fun e => ((fleetKey e).map (fun k => q (k, e.status))).getD false) := by
  rw [← List.countP_eq_length_filter, fleetInput, List.countP_filterMap]
  congr 1
  funext e
  cases fleetKey e <;> rfl

theorem fleetInput_length (equipment : List Equipment) :
    (fleetInput equipment).length = equipment.countP (fun e => e.serial_number.isSome) := by
  have h := fleetInput_filter_length equipment (fun _ => true)
  rw [List.filter_true] at h
  rw [h]
  congr 1
  funext e
  unfold fleetKey
  cases e.serial_number <;> rfl

theorem count_map_fst (input : List (FleetKey × String)) (k : FleetKey) :
    @List.count FleetKey instBEqOfDecidableEq k (input.map Prod.fst) =
      (input.filter (fun x => decide (x.1 = k))).length := by
  show List.countP (fun y => decide (y = k)) (input.map Prod.fst) = _
  rw [List.countP_map, List.countP_eq_length_filter]
  rfl

theorem fleetGroup_key (input : List (FleetKey × String)) (k : FleetKey) :
    (fleetGroup input k).key = k := rfl

theorem fleetsQuery_perm (equipment : List Equipment) :
    (fleetsQuery equipment).Perm
      (((fleetInput equipment).map Prod.fst).dedup.map (fleetGroup (fleetInput equipment))) :=
  List.perm_insertionSort nameLe _

theorem fleetsQuery_keys_perm (equipment : List Equipment) :
    ((fleetsQuery equipment).map FleetRow.key).Perm
      ((fleetInput equipment).map Prod.fst).dedup := by
  have h := (fleetsQuery_perm equipment).map FleetRow.key
  rw [List.map_map] at h
  have hid : FleetRow.key ∘ fleetGroup (fleetInput equipment) = id := by
    funext k
    rfl
  rw [hid, List.map_id] at h
  exact h

theorem mem_fleetInput_keys (equipment : List Equipment) (k : FleetKey) :
    k ∈ (fleetInput equipment).map Prod.fst ↔ ∃ e ∈ equipment, fleetKey e = some k := by
  unfold fleetInput
  simp only [List.mem_map, List.mem_filterMap, Option.map_eq_some']
  constructor
  · rintro ⟨x, ⟨e, he, k', hk', rfl⟩, rfl⟩
    exact ⟨e, he, hk'⟩
  · rintro ⟨e, he, hk⟩
    exact ⟨(k, e.status), ⟨e, he, k, hk, rfl⟩, rfl⟩

/-! ## Closed forms of the queries -/

theorem isFree_iff (reqs : List Reservation) (s e : Int) (x : Equipment) :
    isFree reqs s e x = true ↔ NoConflict reqs s e x := by
  unfold isFree
  rw [List.isEmpty_iff]
  exact filter_joinCond_eq_nil reqs s e x

theorem fleetCandidates_aux (reqs : List Reservation) (s e : Int) (b : String) :
    ∀ l : List Equipment,
      (((l.flatMap (leftJoinRows reqs s e)).filter
        (fun x => serialLike b x.1 && x.1.status == "available" && x.2.isNone)).map
          toCheckRow) =
        (l.filter (fun x => serialLike b x && x.status == "available" &&
          isFree reqs s e x)).map
            (fun x => ({ equipment := x, has_pending_request := false } : CheckRow)) := by
  intro l
  induction l with
  | nil => rfl
  | cons x l ih =>
    rw [List.flatMap_cons, List.filter_append, List.map_append, ih, List.filter_cons]
    by_cases hfree : isFree reqs s e x = true
    · rw [leftJoinRows_of_noConflict reqs s e x ((isFree_iff reqs s e x).1 hfree), hfree]
      by_cases hc : (serialLike b x && x.status == "available") = true
      · simp [hc, toCheckRow]
      · have hc' : (serialLike b x && x.status == "available") = false := by simpa using hc
        simp [hc']
    · have hfree' : isFree reqs s e x = false := by simpa using hfree
      have hnil : (leftJoinRows reqs s e x).filter
          (fun y => serialLike b y.1 && y.1.status == "available" && y.2.isNone) = [] := by
        rw [List.filter_eq_nil_iff]
        intro y hy hcond
        obtain ⟨_, h2⟩ := mem_leftJoinRows reqs s e x y hy
        have hnone : y.2.isSome = false := by
          cases hy2 : y.2 with
          | none => rfl
          | some r => rw [hy2] at hcond; simp at hcond
        exact hfree ((isFree_iff reqs s e x).2 (h2.1 hnone))
      rw [hnil, hfree']
      simp

theorem fleetCandidates_closed (db : Db) (s e : Int) (b : String) :
    fleetCandidates db s e b =
      (db.equipment.filter (fun x => serialLike b x && x.status == "available" &&
        isFree db.requests s e x)).map
          (fun x => ({ equipment := x, has_pending_request := false } : CheckRow)) :=
  fleetCandidates_aux db.requests s e b db.equipment

theorem equipmentToRequest_closed (db : Db) (s e : Int) (id : Nat) :
    equipmentToRequest db s e id =
      match db.equipment.find? (fun x => x.id == id) with
      | none => none
      | some item =>
        if item.status = "available" ∧ isFree db.requests s e item = true then some item
        else
          match baseSerial item.serial_number with
          | none => none
          | some b =>
            if b = "" then none
            else
              match fleetItems db s e b with
              | [] => none
              | row :: _ => some row.equipment := by
  cases hfind : db.equipment.find? (fun x => x.id == id) with
  | none =>
    have hnone : ∀ x ∈ db.equipment, x.id ≠ id := by
      intro x hx hxid
      have := List.find?_eq_none.1 hfind x hx
      simp [hxid] at this
    unfold equipmentToRequest
    rw [equipmentCheck_eq_nil db s e id hnone]
  | some item =>
    obtain ⟨row, rest, h1, h2, h3⟩ := equipmentCheck_of_find db s e id item hfind
    unfold equipmentToRequest
    rw [h1]
    simp only
    rw [h2]
    by_cases hc : item.status = "available" ∧ isFree db.requests s e item = true
    · rw [if_pos hc, if_pos ⟨hc.1, h3.2 ((isFree_iff _ _ _ _).1 hc.2)⟩]
    · rw [if_neg hc, if_neg (fun hh => hc ⟨hh.1, (isFree_iff _ _ _ _).2 (h3.1 hh.2)⟩)]

theorem noConflict_congr (l1 l2 : List Reservation) (s e : Int) (x : Equipment)
    (h : ∀ r, Blocking r → (r ∈ l1 ↔ r ∈ l2)) :
    NoConflict l1 s e x ↔ NoConflict l2 s e x := by
  constructor
  · intro h1 r hr hid hb
    exact h1 r ((h r hb).2 hr) hid hb
  · intro h2 r hr hid hb
    exact h2 r ((h r hb).1 hr) hid hb

theorem isFree_congr (l1 l2 : List Reservation) (s e : Int) (x : Equipment)
    (h : ∀ r, Blocking r → (r ∈ l1 ↔ r ∈ l2)) :
    isFree l1 s e x = isFree l2 s e x := by
  rw [Bool.eq_iff_iff, isFree_iff, isFree_iff]
  exact noConflict_congr l1 l2 s e x h

/-! ## Lemmas on row order and on the two derivations -/

theorem mem_fleetCandidates_congr (db1 db2 : Db) (s e : Int) (b : String)
    (heq : db1.equipment.Perm db2.equipment) (hreq : db1.requests.Perm db2.requests)
    (row : CheckRow) :
    row ∈ fleetCandidates db1 s e b ↔ row ∈ fleetCandidates db2 s e b := by
  rw [mem_fleetCandidates, mem_fleetCandidates, heq.mem_iff]
  unfold Eligible
  rw [noConflict_congr db1.requests db2.requests s e row.equipment
    (fun r _ => hreq.mem_iff)]

theorem fleetCandidates_serial (db : Db) (s e : Int) (b : String) (row : CheckRow)
    (h : row ∈ fleetCandidates db s e b) :
    ∃ t : String, row.equipment.serial_number = some t ∧ serialKey row = t.data := by
  obtain ⟨_, _, hlike, _⟩ := (mem_fleetCandidates db s e b row).1 h
  unfold serialLike at hlike
  unfold serialKey
  cases hs : row.equipment.serial_number with
  | none => rw [hs] at hlike; simp at hlike
  | some t => exact ⟨t, rfl, rfl⟩

theorem find?_perm_of_unique {α : Type} (p : α → Bool) (l1 l2 : List α)
    (hperm : l1.Perm l2) (huniq : ∀ a ∈ l1, ∀ b ∈ l1, p a = true → p b = true → a = b) :
    l1.find? p = l2.find? p := by
  cases h1 : l1.find? p with
  | none =>
    symm
    rw [List.find?_eq_none]
    intro x hx
    exact List.find?_eq_none.1 h1 x (hperm.mem_iff.2 hx)
  | some a =>
    have ha := List.mem_of_find?_eq_some h1
    have hpa := List.find?_some h1
    cases h2 : l2.find? p with
    | none => exact absurd hpa (List.find?_eq_none.1 h2 a (hperm.mem_iff.1 ha))
    | some c =>
      have hc := hperm.mem_iff.2 (List.mem_of_find?_eq_some h2)
      rw [huniq a ha c hc hpa (List.find?_some h2)]

theorem isDigit_eq_range (c : Char) : c.isDigit = decide ('0' ≤ c ∧ c ≤ '9') := by
  unfold Char.isDigit
  rw [Bool.eq_iff_iff]
  simp [Char.le_def, UInt32.le_def]

/-! ## Lemmas on what the loop collects -/

theorem foldl_loopBody_trace (user_id : Nat) (s e : Int) (notes : Option String)
    (lesson : LessonPlan) (ids : List Nat) :
    ∀ st : LoopState, ∃ (newReqs : List RequestEntry) (newSk : List Skip),
      (ids.foldl (loopBody user_id s e notes lesson) st).requests = st.requests ++ newReqs ∧
      (ids.foldl (loopBody user_id s e notes lesson) st).skipped = st.skipped ++ newSk ∧
      (ids.foldl (loopBody user_id s e notes lesson) st).db.requests =
        st.db.requests ++ newReqs.map (fun x => x.request) ∧
      (newSk.map (fun x => x.equipment_id)).Sublist ids := by
  induction ids with
  | nil =>
    intro st
    exact ⟨[], [], by simp, by simp, by simp, List.Sublist.slnil⟩
  | cons i ids ih =>
    intro st
    obtain ⟨nr, ns, h1, h2, h3, h4⟩ := ih (loopBody user_id s e notes lesson st i)
    rw [List.foldl_cons]
    cases hres : equipmentToRequest st.db s e i with
    | none =>
      obtain ⟨hdb, hrq, hsk⟩ := loopBody_skip user_id s e notes lesson st i hres
      refine ⟨nr, (⟨i, "No available items in fleet for this period"⟩ : Skip) :: ns,
        ?_, ?_, ?_, ?_⟩
      · rw [h1, hrq]
      · rw [h2, hsk, List.append_assoc]
        rfl
      · rw [h3, hdb]
      · exact List.Sublist.cons₂ i h4
    | some item =>
      obtain ⟨entry, hbody⟩ : ∃ entry : RequestEntry,
          loopBody user_id s e notes lesson st i =
            { db := { st.db with requests := st.db.requests ++ [entry.request] }
              requests := st.requests ++ [entry]
              skipped := st.skipped } := by
        refine ⟨{ request := (insertRequest st.db user_id item.id s e
            (notesOrDefault notes lesson.title)).1
                  equipment := ((insertRequest st.db user_id item.id s e
            (notesOrDefault notes lesson.title)).2.equipment.filter
              (fun x => x.id == item.id)).head? }, ?_⟩
        unfold loopBody
        rw [hres]
        rfl
      rw [hbody] at h1 h2 h3
      rw [hbody]
      refine ⟨entry :: nr, ns, ?_, h2, ?_, List.Sublist.cons i h4⟩
      · rw [h1, List.append_assoc]
        rfl
      · rw [h3, List.append_assoc]
        rfl

theorem runLoop_trace (db : Db) (user_id : Nat) (s e : Int) (notes : Option String)
    (lesson : LessonPlan) (ids : List Nat) :
    (runLoop db user_id s e notes lesson ids).db.requests =
        db.requests ++ (runLoop db user_id s e notes lesson ids).requests.map
          (fun x => x.request) ∧
      ((runLoop db user_id s e notes lesson ids).skipped.map
        (fun x => x.equipment_id)).Sublist ids := by
  obtain ⟨nr, ns, h1, h2, h3, h4⟩ := foldl_loopBody_trace user_id s e notes lesson ids
    { db := db, requests := [], skipped := [] }
  unfold runLoop
  rw [h1, h2, h3]
  exact ⟨rfl, h4⟩

/-! ## Lemmas on the curriculum payload and on the bulk rows -/

theorem foldl_add_eq_sum {α : Type} (f : α → Nat) (l : List α) :
    ∀ a : Nat, l.foldl (fun sum x => sum + f x) a = a + (l.map f).sum := by
  induction l with
  | nil => intro a; simp
  | cons x l ih =>
    intro a
    rw [List.foldl_cons, ih, List.map_cons, List.sum_cons]
    omega

theorem sum_filter_eq {α : Type} (p : α → Bool) (t : α → Nat) (l : List α) :
    ((l.filter p).map t).sum = (l.map (fun x => if p x = true then t x else 0)).sum := by
  induction l with
  | nil => rfl
  | cons x l ih =>
    rw [List.filter_cons, List.map_cons, List.sum_cons]
    by_cases hp : p x = true
    · rw [if_pos hp, if_pos hp, List.map_cons, List.sum_cons, ih]
    · rw [if_neg hp, if_neg hp, ih]
      omega

theorem listsFleet_eq (row : SubjectRow) (fleet : FleetRow) :
    listsFleet row fleet =
      decide (fleet.base_serial ∈ row.subject.equipment_fleets.getD []) := by
  unfold listsFleet
  rw [Bool.eq_iff_iff]
  simp

theorem sum_listed_swap (subjects : List SubjectRow) (fleets : List FleetRow) :
    (subjects.map (fun row =>
        ((fleets.filter (listsFleet row)).map (fun f => f.total_count)).sum)).sum =
      (fleets.map (fun f =>
        subjects.countP (fun row => listsFleet row f) * f.total_count)).sum := by
  induction subjects with
  | nil => simp
  | cons row subjects ih =>
    rw [List.map_cons, List.sum_cons, ih, sum_filter_eq, ← List.sum_map_add]
    congr 1
    apply List.map_congr_left
    intro f _
    rw [List.countP_cons]
    by_cases hp : listsFleet row f = true
    · rw [if_pos hp, if_pos hp]
      ring
    · rw [if_neg hp, if_neg hp]
      ring

theorem withFleets_spec (fleets : List FleetRow) (row : SubjectRow) :
    (withFleets fleets row).fleet_count = fleets.countP (listsFleet row) ∧
      (withFleets fleets row).total_equipment =
        ((fleets.filter (listsFleet row)).map (fun f => f.total_count)).sum := by
  constructor
  · show (fleets.filter (listsFleet row)).length = _
    rw [List.countP_eq_length_filter]
  · show (fleets.filter (listsFleet row)).foldl (fun sum fleet => sum + fleet.total_count) 0 = _
    rw [foldl_add_eq_sum, Nat.zero_add]

theorem bulkLoop_rows (constraints : Db → LessonPlan → Bool) (user : User)
    (plans : List PlanInput) :
    ∀ (db : Db) (results rows : List LessonPlan) (db' : Db),
      bulkLoop constraints user plans db results = (some rows, db') →
      ∃ new : List LessonPlan, rows = results ++ new ∧
        db'.lesson_plans = db.lesson_plans ++ new ∧
        List.Forall₂ (StoredFrom user) plans new := by
  induction plans with
  | nil =>
    intro db results rows db' h
    unfold bulkLoop at h
    simp only [Prod.mk.injEq, Option.some.injEq] at h
    obtain ⟨rfl, rfl⟩ := h
    exact ⟨[], by simp, by simp, List.Forall₂.nil⟩
  | cons p plans ih =>
    intro db results rows db' h
    rw [bulkLoop_cons] at h
    unfold insertLessonPlan at h
    by_cases hc : constraints db (bulkPlanRow db.lesson_plans user p) = true
    · rw [if_pos hc] at h
      obtain ⟨new, h1, h2, h3⟩ := ih _ _ rows db' h
      refine ⟨bulkPlanRow db.lesson_plans user p :: new, ?_, ?_, List.Forall₂.cons ?_ h3⟩
      · rw [h1]; simp
      · rw [h2]; simp
      · exact ⟨rfl, rfl, rfl, rfl, rfl, rfl, rfl, rfl, rfl, rfl, rfl⟩
    · rw [if_neg hc] at h
      simp at h

theorem forall₂_right_mem {α β : Type} (R : α → β → Prop) (l1 : List α) (l2 : List β)
    (h : List.Forall₂ R l1 l2) : ∀ b ∈ l2, ∃ a ∈ l1, R a b := by
  induction h with
  | nil => intro b hb; exact absurd hb (List.not_mem_nil b)
  | cons hab _ ih =>
    intro b hb
    rcases List.mem_cons.1 hb with rfl | hmem
    · exact ⟨_, List.mem_cons_self _ _, hab⟩
    · obtain ⟨a, ha, hr⟩ := ih b hmem
      exact ⟨a, List.mem_cons_of_mem _ ha, hr⟩

/-! ## Theorems -/

/-- C1, counterexample: `LAP1234` ends in four digits, not in exactly three, and its
derived base serial is `LAP1`, not the full serial number. -/
theorem baseSerial_four_digits :
    trailingDigits "LAP1234".data = 4 ∧
      baseSerial (some "LAP1234") = some "LAP1" ∧
      baseSerial (some "LAP1234") ≠ some "LAP1234" := by
  decide

/-- C1, amended: a serial number that ends in at least three digits is its derived
base serial followed by three digits, so the base serial is the serial number with
its last three digits removed; a serial number that ends in fewer than three digits
is its own base serial. -/
theorem replaceTrailingDigits3_spec (cs : List Char) :
    if 3 ≤ trailingDigits cs then
      ∃ d : List Char, d.length = 3 ∧ d.all Char.isDigit = true ∧
        cs = replaceTrailingDigits3 cs ++ d
    else replaceTrailingDigits3 cs = cs := by
  unfold replaceTrailingDigits3
  by_cases h : 3 ≤ trailingDigits cs
  · have hc := (replaceTrailingDigits3_cond cs).2 h
    rw [if_pos h, if_pos hc]
    refine ⟨cs.drop (cs.length - 3), ?_, hc.2, (List.take_append_drop _ cs).symm⟩
    rw [List.length_drop]
    omega
  · have hc : ¬ (3 ≤ cs.length ∧ (cs.drop (cs.length - 3)).all Char.isDigit = true) :=
      fun hc => h ((replaceTrailingDigits3_cond cs).1 hc)
    rw [if_neg h, if_neg hc]

/-- C2: when an iteration of the allocator's loop adds a reservation to the ledger,
the reservation is for the item the resolution chose, that item is in the inventory
with status `available`, and no pending or approved reservation of the ledger on
that item satisfies `start_date <= end_date` of the request and
`end_date >= start_date` of the request. -/
theorem loopBody_reserves_eligible (user_id : Nat) (s e : Int) (notes : Option String)
    (lesson : LessonPlan) (st : LoopState) (equipment_id : Nat) (r : Reservation)
    (h : (loopBody user_id s e notes lesson st equipment_id).db.requests =
      st.db.requests ++ [r]) :
    ∃ item, equipmentToRequest st.db s e equipment_id = some item ∧
      item ∈ st.db.equipment ∧ r.equipment_id = item.id ∧ item.status = "available" ∧
      ∀ r0 ∈ st.db.requests, r0.equipment_id = item.id →
        (r0.status = "pending" ∨ r0.status = "approved") →
        ¬ (r0.start_date ≤ e ∧ r0.end_date ≥ s) := by
  unfold loopBody at h
  cases hres : equipmentToRequest st.db s e equipment_id with
  | none =>
    rw [hres] at h
    simp at h
  | some item =>
    rw [hres] at h
    simp only [insertRequest, List.append_cancel_left_eq, List.cons.injEq, and_true] at h
    obtain ⟨h1, h2⟩ := equipmentToRequest_eligible st.db s e equipment_id item hres
    refine ⟨item, rfl, h1, ?_, h2.1, h2.2⟩
    rw [← h]
    rfl

/-- C2, witness: in the scenario of the specification the iteration for `LAP001`
adds a reservation for `LAP002`. -/
theorem loopBody_reserves_eligible_witness :
    (loopBody 9 1 5 none algebra { db := lapDb, requests := [], skipped := [] } 1).db.requests =
        lapDb.requests ++ [newRequestRow [] 9 2 1 5 "Equipment for lesson: Algebra"] ∧
      ∃ item, equipmentToRequest lapDb 1 5 1 = some item ∧
        item ∈ lapDb.equipment ∧
        (newRequestRow [] 9 2 1 5 "Equipment for lesson: Algebra").equipment_id = item.id ∧
        item.status = "available" ∧
        ∀ r0 ∈ lapDb.requests, r0.equipment_id = item.id →
          (r0.status = "pending" ∨ r0.status = "approved") →
          ¬ (r0.start_date ≤ 5 ∧ r0.end_date ≥ 1) :=
  ⟨by decide,
    loopBody_reserves_eligible 9 1 5 none algebra
      { db := lapDb, requests := [], skipped := [] } 1
      (newRequestRow [] 9 2 1 5 "Equipment for lesson: Algebra") (by decide)⟩

/-- C3, counterexample: the requested item `001` is checked out and its base serial
is the empty string, which the serial number of the available item `002` starts
with; the allocator reserves nothing. -/
theorem fallback_skips_empty_base :
    digitsDb.equipment.find? (fun x => x.id == 1) = some (laptop 1 "001" "checked_out") ∧
      ¬ Eligible digitsDb.requests 1 5 (laptop 1 "001" "checked_out") ∧
      baseSerial (laptop 1 "001" "checked_out").serial_number = some "" ∧
      laptop 2 "002" "available" ∈ digitsDb.equipment ∧
      SerialStartsWith "" (laptop 2 "002" "available") ∧
      Eligible digitsDb.requests 1 5 (laptop 2 "002" "available") ∧
      equipmentToRequest digitsDb 1 5 1 = none := by
  refine ⟨by decide, ?_, by decide, by decide, ⟨"002", rfl, List.nil_prefix⟩, ?_, by decide⟩
  · intro h
    exact absurd h.1 (by decide)
  · exact ⟨by decide, fun r hr => absurd hr (List.not_mem_nil r)⟩

/-- C3, amended: when the requested item exists and is not eligible, its base serial
is not empty and holds none of `%`, `_` and the backslash, and some item whose serial
number starts with the base serial is eligible, the allocator resolves the id to an
eligible item whose serial number starts with the base serial and is least among
the serial numbers of all such items. -/
theorem fallback_least_serial (db : Db) (s e : Int) (id : Nat) (item : Equipment)
    (b : String)
    (hfind : db.equipment.find? (fun x => x.id == id) = some item)
    (hne : ¬ Eligible db.requests s e item)
    (hb : baseSerial item.serial_number = some b) (hb0 : b ≠ "")
    (hplain : PlainSerial b)
    (hex : ∃ c ∈ db.equipment, SerialStartsWith b c ∧ Eligible db.requests s e c) :
    ∃ chosen, equipmentToRequest db s e id = some chosen ∧ chosen ∈ db.equipment ∧
      SerialStartsWith b chosen ∧ Eligible db.requests s e chosen ∧
      ∀ c ∈ db.equipment, SerialStartsWith b c → Eligible db.requests s e c →
        SerialLE chosen c := by
  obtain ⟨row, rest, h1, h2, h3⟩ := equipmentCheck_of_find db s e id item hfind
  have hcand : ∀ c ∈ db.equipment, SerialStartsWith b c → Eligible db.requests s e c →
      ({ equipment := c, has_pending_request := false } : CheckRow) ∈
        fleetCandidates db s e b := fun c hc hs hel =>
    (mem_fleetCandidates db s e b _).2 ⟨rfl, hc, (serialLike_plain b hplain c).2 hs, hel⟩
  obtain ⟨c0, hc0, hs0, hel0⟩ := hex
  cases hf : fleetItems db s e b with
  | nil =>
    have := (fleetItems_eq_nil db s e b).1 hf
    have hmem := hcand c0 hc0 hs0 hel0
    rw [this] at hmem
    exact absurd hmem (List.not_mem_nil _)
  | cons r rs =>
    obtain ⟨_, hmem, hmin⟩ := fleetItems_cons db s e b r rs hf
    obtain ⟨_, h5, h6, h7⟩ := (mem_fleetCandidates db s e b r).1 hmem
    have hsw := (serialLike_plain b hplain r.equipment).1 h6
    refine ⟨r.equipment, ?_, h5, hsw, h7, ?_⟩
    · unfold equipmentToRequest
      rw [h1]
      simp only
      rw [if_neg (fun hfree => hne ⟨by rw [← h2]; exact hfree.1, h3.1 hfree.2⟩), h2, hb]
      simp only
      rw [if_neg hb0, hf]
    · intro c hc hs hel
      have hle := hmin _ (hcand c hc hs hel)
      obtain ⟨sa, hsa, _⟩ := hsw
      obtain ⟨sb, hsb, _⟩ := hs
      refine ⟨sa, sb, hsa, hsb, ?_⟩
      unfold serialLe serialKey at hle
      simp only [hsa, hsb] at hle
      exact hle

/-- C3, witness: with `LAP001` checked out and `LAP002`, `LAP003` available, the id of
`LAP001` resolves to `LAP002`. -/
theorem fallback_least_serial_witness :
    equipmentToRequest lapDb 1 5 1 = some (laptop 2 "LAP002" "available") ∧
      ∃ chosen, equipmentToRequest lapDb 1 5 1 = some chosen ∧ chosen ∈ lapDb.equipment ∧
        SerialStartsWith "LAP" chosen ∧ Eligible lapDb.requests 1 5 chosen ∧
        ∀ c ∈ lapDb.equipment, SerialStartsWith "LAP" c → Eligible lapDb.requests 1 5 c →
          SerialLE chosen c :=
  ⟨by decide,
    fallback_least_serial lapDb 1 5 1 (laptop 1 "LAP001" "checked_out") "LAP" (by decide)
      (fun h => absurd h.1 (by decide)) (by decide) (by decide)
      (by unfold PlainSerial; decide)
      ⟨laptop 2 "LAP002" "available", by decide, ⟨"LAP002", rfl, "002".data, rfl⟩,
        by decide, fun r hr => absurd hr (List.not_mem_nil r)⟩⟩

/-- C4: when the requested item exists, is `available` and has no overlapping pending
or approved reservation, the id resolves to that very item and the iteration adds one
reservation, for that item, whatever the other items of the inventory are. -/
theorem requested_item_preferred (user_id : Nat) (s e : Int) (notes : Option String)
    (lesson : LessonPlan) (st : LoopState) (id : Nat) (item : Equipment)
    (hfind : st.db.equipment.find? (fun x => x.id == id) = some item)
    (helig : Eligible st.db.requests s e item) :
    equipmentToRequest st.db s e id = some item ∧
      ∃ row, (loopBody user_id s e notes lesson st id).db.requests =
        st.db.requests ++ [row] ∧ row.equipment_id = item.id := by
  have h := equipmentToRequest_direct st.db s e id item hfind helig
  refine ⟨h, newRequestRow st.db.requests user_id item.id s e
    (notesOrDefault notes lesson.title), ?_, rfl⟩
  unfold loopBody
  rw [h]
  rfl

/-- C4, witness: `LAP001` is requested and free, and it is chosen although the free
`LAP000` of the same fleet has a smaller serial number. -/
theorem requested_item_preferred_witness :
    pairDb.equipment.find? (fun x => x.id == 1) = some (laptop 1 "LAP001" "available") ∧
      Eligible pairDb.requests 1 5 (laptop 1 "LAP001" "available") ∧
      equipmentToRequest pairDb 1 5 1 = some (laptop 1 "LAP001" "available") ∧
      ∃ row, (loopBody 9 1 5 none algebra
          { db := pairDb, requests := [], skipped := [] } 1).db.requests =
        pairDb.requests ++ [row] ∧ row.equipment_id = (laptop 1 "LAP001" "available").id :=
  ⟨by decide, ⟨by decide, fun r hr => absurd hr (List.not_mem_nil r)⟩,
    requested_item_preferred 9 1 5 none algebra
      { db := pairDb, requests := [], skipped := [] } 1 (laptop 1 "LAP001" "available")
      (by decide) ⟨by decide, fun r hr => absurd hr (List.not_mem_nil r)⟩⟩

/-- C5: if no item has two overlapping pending or approved reservations before a
request-equipment call, none has after it, each reservation the call creates being
pending, whatever the list of requested ids, repeated ids included. -/
theorem requestEquipment_preserves_invariant (db : Db) (user_id id : Nat)
    (equipment_ids : List Nat) (s e : Int) (notes : Option String)
    (h : NoDoubleBooking db.requests) :
    NoDoubleBooking (requestEquipment db user_id id equipment_ids s e notes).2.requests := by
  cases hl : db.lesson_plans.filter (fun lp => lp.id == id) with
  | nil =>
    rw [requestEquipment_of_no_lesson db user_id id equipment_ids s e notes hl]
    exact h
  | cons lesson rest =>
    rw [requestEquipment_of_lesson db user_id id equipment_ids s e notes lesson rest hl]
    have hloop : NoDoubleBooking (runLoop db user_id s e notes lesson equipment_ids).db.requests :=
      foldl_loopBody_noDoubleBooking user_id s e notes lesson equipment_ids _ h
    split
    · exact hloop
    · exact hloop

/-- C5, witness: `LAP002` is booked for days 1 to 5 and the id of `LAP001` is requested
twice for days 3 to 8; one reservation is added, for `LAP003`, and the invariant
holds after the call. -/
theorem requestEquipment_preserves_invariant_witness :
    NoDoubleBooking bookedDb.requests ∧
      (requestEquipment bookedDb 9 7 [1, 1] 3 8 none).2.requests.map
        (fun r => r.equipment_id) = [2, 3] ∧
      NoDoubleBooking (requestEquipment bookedDb 9 7 [1, 1] 3 8 none).2.requests :=
  ⟨List.pairwise_singleton _ _, by decide,
    requestEquipment_preserves_invariant bookedDb 9 7 [1, 1] 3 8 none
      (List.pairwise_singleton _ _)⟩

/-- C6, the code at the failing input: the requested item `A_1` is checked out and no
eligible item has a serial number starting with its base serial `A_1`, yet the
iteration records no skip and reserves `AB1`, which `LIKE 'A_1%'` matches. -/
theorem skip_missed_on_underscore :
    wildDb.equipment.find? (fun x => x.id == 1) = some (laptop 1 "A_1" "checked_out") ∧
      baseSerial (laptop 1 "A_1" "checked_out").serial_number = some "A_1" ∧
      ¬ Eligible wildDb.requests 1 5 (laptop 1 "A_1" "checked_out") ∧
      (∀ c ∈ wildDb.equipment, SerialStartsWith "A_1" c →
        ¬ Eligible wildDb.requests 1 5 c) ∧
      (loopBody 9 1 5 none algebra { db := wildDb, requests := [], skipped := [] } 1).skipped
        = [] ∧
      (loopBody 9 1 5 none algebra
        { db := wildDb, requests := [], skipped := [] } 1).db.requests.map
          (fun r => r.equipment_id) = [2] := by
  refine ⟨by decide, by decide, fun h => absurd h.1 (by decide), ?_, by decide, by decide⟩
  intro c hc hs hel
  have hc' : c = laptop 1 "A_1" "checked_out" ∨ c = laptop 2 "AB1" "available" := by
    simpa [wildDb] using hc
  rcases hc' with rfl | rfl
  · exact absurd hel.1 (by decide)
  · obtain ⟨t, ht, hp⟩ := hs
    cases ht
    exact absurd hp (by decide)

/-- C7, counterexample: for the empty list of requested ids every requested id was
skipped, there being none, and the response is 201, not 400. -/
theorem empty_request_is_created :
    (∀ i ∈ ([] : List Nat),
        ∃ sk ∈ (runLoop lapDb 9 1 5 none algebra []).skipped, sk.equipment_id = i) ∧
      (runLoop lapDb 9 1 5 none algebra []).skipped.length = ([] : List Nat).length ∧
      (requestEquipment lapDb 9 7 [] 1 5 none).1.status = 201 ∧
      (requestEquipment lapDb 9 7 [] 1 5 none).1.status ≠ 400 :=
  ⟨fun i hi => absurd hi (List.not_mem_nil i), by decide, by decide, by decide⟩

/-- C7, amended: when the lesson plan exists, the response is the 400 collective
failure carrying the skipped list if at least one id was requested and every
requested id was skipped (as many skips as ids); otherwise, the empty list
included, it is the 201 response carrying the created reservations and the skips. -/
theorem aggregate_outcome (db : Db) (user_id id : Nat) (equipment_ids : List Nat)
    (s e : Int) (notes : Option String) (lesson : LessonPlan) (rest : List LessonPlan)
    (hlesson : db.lesson_plans.filter (fun lp => lp.id == id) = lesson :: rest) :
    (requestEquipment db user_id id equipment_ids s e notes).1 =
      if equipment_ids ≠ [] ∧
          (runLoop db user_id s e notes lesson equipment_ids).skipped.length =
            equipment_ids.length then
        Response.allSkipped "No more items available"
          "All items in the requested fleets are currently in use or under repair."
          (runLoop db user_id s e notes lesson equipment_ids).skipped
      else
        Response.created (runLoop db user_id s e notes lesson equipment_ids).requests
          (runLoop db user_id s e notes lesson equipment_ids).skipped lesson
          (toString (runLoop db user_id s e notes lesson equipment_ids).requests.length ++
            " requests created, " ++
            toString (runLoop db user_id s e notes lesson equipment_ids).skipped.length ++
            " items skipped") := by
  rw [requestEquipment_of_lesson db user_id id equipment_ids s e notes lesson rest hlesson]
  have hcount := runLoop_count db user_id s e notes lesson equipment_ids
  by_cases hc : (runLoop db user_id s e notes lesson equipment_ids).requests.length = 0 ∧
      (runLoop db user_id s e notes lesson equipment_ids).skipped.length > 0
  · have hc2 : equipment_ids ≠ [] ∧
        (runLoop db user_id s e notes lesson equipment_ids).skipped.length =
          equipment_ids.length := by
      refine ⟨?_, by omega⟩
      intro hnil
      have hzero : equipment_ids.length = 0 := by rw [hnil]; rfl
      omega
    rw [if_pos hc, if_pos hc2]
  · have hc2 : ¬ (equipment_ids ≠ [] ∧
        (runLoop db user_id s e notes lesson equipment_ids).skipped.length =
          equipment_ids.length) := by
      rintro ⟨hne, hlen⟩
      have hpos := List.length_pos.2 hne
      exact hc ⟨by omega, by omega⟩
    rw [if_neg hc, if_neg hc2]

/-- C7, witness: a request for an id that matches no item is answered 400 with the
skipped list, a request for `LAP001` and that id is answered 201. -/
theorem aggregate_outcome_witness :
    lapDb.lesson_plans.filter (fun lp => lp.id == 7) = algebra :: [] ∧
      (requestEquipment lapDb 9 7 [99] 1 5 none).1.status = 400 ∧
      (requestEquipment lapDb 9 7 [1, 99] 1 5 none).1.status = 201 ∧
      (requestEquipment lapDb 9 7 [99] 1 5 none).1 =
        if [99] ≠ [] ∧ (runLoop lapDb 9 1 5 none algebra [99]).skipped.length =
            [99].length then
          Response.allSkipped "No more items available"
            "All items in the requested fleets are currently in use or under repair."
            (runLoop lapDb 9 1 5 none algebra [99]).skipped
        else
          Response.created (runLoop lapDb 9 1 5 none algebra [99]).requests
            (runLoop lapDb 9 1 5 none algebra [99]).skipped algebra
            (toString (runLoop lapDb 9 1 5 none algebra [99]).requests.length ++
              " requests created, " ++
              toString (runLoop lapDb 9 1 5 none algebra [99]).skipped.length ++
              " items skipped") :=
  ⟨by decide, by decide, by decide,
    aggregate_outcome lapDb 9 7 [99] 1 5 none algebra [] (by decide)⟩

/-- C8: when no lesson plan has the given id, the response is the 404
`Lesson plan not found` and the database, its ledger included, is the one the call
started from, whatever ids, dates and notes are supplied. -/
theorem missing_lesson_plan (db : Db) (user_id id : Nat) (equipment_ids : List Nat)
    (s e : Int) (notes : Option String)
    (h : ∀ lp ∈ db.lesson_plans, lp.id ≠ id) :
    (requestEquipment db user_id id equipment_ids s e notes).1 =
        Response.notFound "Lesson plan not found" ∧
      (requestEquipment db user_id id equipment_ids s e notes).1.status = 404 ∧
      (requestEquipment db user_id id equipment_ids s e notes).2 = db ∧
      (requestEquipment db user_id id equipment_ids s e notes).2.requests = db.requests := by
  have hf : db.lesson_plans.filter (fun lp => lp.id == id) = [] := by
    rw [List.filter_eq_nil_iff]
    intro lp hlp
    simpa using h lp hlp
  rw [requestEquipment_of_no_lesson db user_id id equipment_ids s e notes hf]
  exact ⟨rfl, rfl, rfl, rfl⟩

/-- C8, witness: no lesson plan has id 8, and a request for the free `LAP002` under
that id is answered 404 and leaves the ledger empty. -/
theorem missing_lesson_plan_witness :
    (∀ lp ∈ lapDb.lesson_plans, lp.id ≠ 8) ∧
      (requestEquipment lapDb 9 8 [2] 1 5 none).1 =
        Response.notFound "Lesson plan not found" ∧
      (requestEquipment lapDb 9 8 [2] 1 5 none).1.status = 404 ∧
      (requestEquipment lapDb 9 8 [2] 1 5 none).2 = lapDb ∧
      (requestEquipment lapDb 9 8 [2] 1 5 none).2.requests = lapDb.requests :=
  ⟨by decide, missing_lesson_plan lapDb 9 8 [2] 1 5 none (by decide)⟩

/-- C9: an iteration that does not skip its id appends exactly one row to the ledger
and one entry, holding that row, to the created requests; the row's equipment_id is
the id of the resolved item, its user_id the caller's id, its dates the requested
ones, and its notes the supplied notes when they are present and not empty, else
`Equipment for lesson: ` followed by the lesson plan's title. -/
theorem reservation_row (user_id : Nat) (s e : Int) (notes : Option String)
    (lesson : LessonPlan) (st : LoopState) (equipment_id : Nat)
    (hns : (loopBody user_id s e notes lesson st equipment_id).skipped = st.skipped) :
    ∃ item row, equipmentToRequest st.db s e equipment_id = some item ∧
      (loopBody user_id s e notes lesson st equipment_id).db.requests =
        st.db.requests ++ [row] ∧
      (loopBody user_id s e notes lesson st equipment_id).requests.map
        (fun x => x.request) = st.requests.map (fun x => x.request) ++ [row] ∧
      row.equipment_id = item.id ∧ row.user_id = user_id ∧
      row.start_date = s ∧ row.end_date = e ∧
      (∀ n, notes = some n → n ≠ "" → row.notes = some n) ∧
      (notes = none ∨ notes = some "" →
        row.notes = some ("Equipment for lesson: " ++ lesson.title)) := by
  cases hres : equipmentToRequest st.db s e equipment_id with
  | none =>
    unfold loopBody at hns
    rw [hres] at hns
    simp at hns
  | some item =>
    refine ⟨item, newRequestRow st.db.requests user_id item.id s e
      (notesOrDefault notes lesson.title), rfl, ?_, ?_, rfl, rfl, rfl, rfl, ?_, ?_⟩
    · unfold loopBody
      rw [hres]
      rfl
    · unfold loopBody
      rw [hres]
      simp [insertRequest]
    · intro n hn hne
      subst hn
      simp [newRequestRow, notesOrDefault, hne]
    · rintro (hn | hn)
      · subst hn
        rfl
      · subst hn
        rfl

/-- C9, witness: in the scenario of the specification, without notes, the iteration
for `LAP001` stores a row for `LAP002`, the caller 9 and days 1 to 5, with the
default notes. -/
theorem reservation_row_witness :
    (loopBody 9 1 5 none algebra { db := lapDb, requests := [], skipped := [] } 1).skipped =
        [] ∧
      (loopBody 9 1 5 none algebra
        { db := lapDb, requests := [], skipped := [] } 1).db.requests =
        [{ id := 1, user_id := 9, equipment_id := 2, start_date := 1, end_date := 5,
           status := "pending", notes := some "Equipment for lesson: Algebra" }] ∧
      ∃ item row, equipmentToRequest lapDb 1 5 1 = some item ∧
        (loopBody 9 1 5 none algebra
          { db := lapDb, requests := [], skipped := [] } 1).db.requests =
          lapDb.requests ++ [row] ∧
        (loopBody 9 1 5 none algebra
          { db := lapDb, requests := [], skipped := [] } 1).requests.map
          (fun x => x.request) = ([] : List RequestEntry).map (fun x => x.request) ++ [row] ∧
        row.equipment_id = item.id ∧ row.user_id = 9 ∧
        row.start_date = 1 ∧ row.end_date = 5 ∧
        (∀ n, (none : Option String) = some n → n ≠ "" → row.notes = some n) ∧
        ((none : Option String) = none ∨ (none : Option String) = some "" →
          row.notes = some ("Equipment for lesson: " ++ algebra.title)) :=
  ⟨by decide, by decide,
    reservation_row 9 1 5 none algebra { db := lapDb, requests := [], skipped := [] } 1
      (by decide)⟩

/-- C10, the code at the failing input: no eligible item has a serial number starting
with the prefix `A_`, yet the next-available route answers 200 with `AB1`, which
`LIKE 'A_%'` matches. -/
theorem nextAvailable_underscore :
    (∀ c ∈ wildDb.equipment, SerialStartsWith "A_" c →
        ¬ Eligible wildDb.requests 1 5 c) ∧
      nextAvailable wildDb "A_" 1 5 =
        NextAvailableResponse.ok
          { equipment := laptop 2 "AB1" "available", has_pending_request := false } ∧
      (nextAvailable wildDb "A_" 1 5).status = 200 := by
  refine ⟨?_, by decide, by decide⟩
  intro c hc hs hel
  have hc' : c = laptop 1 "A_1" "checked_out" ∨ c = laptop 2 "AB1" "available" := by
    simpa [wildDb] using hc
  rcases hc' with rfl | rfl
  · exact absurd hel.1 (by decide)
  · obtain ⟨t, ht, hp⟩ := hs
    cases ht
    exact absurd hp (by decide)

/-- C11: deleting a subject that some lesson plan references is answered 400 and
leaves the database, its subjects and its lesson plans, as it was; when the delete
changes the subject table no lesson plan references the subject; the lesson plans
are never changed. -/
theorem deleteSubject_guard (db : Db) (id : Nat) :
    ((∃ lp ∈ db.lesson_plans, lp.subject_id = some id) →
        (deleteSubject db id).1.status = 400 ∧ (deleteSubject db id).2 = db) ∧
      ((deleteSubject db id).2.subjects ≠ db.subjects →
        ∀ lp ∈ db.lesson_plans, lp.subject_id ≠ some id) ∧
      (deleteSubject db id).2.lesson_plans = db.lesson_plans := by
  have hpos : (∃ lp ∈ db.lesson_plans, lp.subject_id = some id) →
      (db.lesson_plans.filter (fun lp => lp.subject_id == some id)).length > 0 := by
    rintro ⟨lp, hlp, hid⟩
    apply List.length_pos_of_mem
    exact List.mem_filter.2 ⟨hlp, by simpa using hid⟩
  refine ⟨?_, ?_, ?_⟩
  · intro h
    unfold deleteSubject
    rw [if_pos (hpos h)]
    exact ⟨rfl, rfl⟩
  · intro hchg lp hlp hid
    apply hchg
    unfold deleteSubject
    rw [if_pos (hpos ⟨lp, hlp, hid⟩)]
  · unfold deleteSubject
    split
    · rfl
    · simp only
      split <;> rfl

/-- C11, witness: the subject 5 is referenced by a lesson plan; deleting it is
answered 400 and changes nothing. -/
theorem deleteSubject_guard_witness :
    (∃ lp ∈ schoolDb.lesson_plans, lp.subject_id = some 5) ∧
      (deleteSubject schoolDb 5).1.status = 400 ∧ (deleteSubject schoolDb 5).2 = schoolDb :=
  ⟨⟨{ algebra with subject_id := some 5 }, by decide, rfl⟩,
    (deleteSubject_guard schoolDb 5).1 ⟨{ algebra with subject_id := some 5 }, by decide, rfl⟩⟩

/-- C12: creating a subject whose code is the code of a stored subject is answered
400 and leaves the database, the subjects included, as it was. -/
theorem createSubject_duplicate (db : Db) (b : SubjectInput)
    (h : ∃ x ∈ db.subjects, x.code = b.code) :
    (createSubject db b).1.status = 400 ∧ (createSubject db b).2 = db ∧
      (createSubject db b).2.subjects = db.subjects := by
  have hany : db.subjects.any (fun x => x.code == b.code) = true := by
    obtain ⟨x, hx, hc⟩ := h
    exact List.any_eq_true.2 ⟨x, hx, by simpa using hc⟩
  unfold createSubject insertSubject
  rw [if_pos hany]
  exact ⟨rfl, rfl, rfl⟩

/-- C12, witness: a second subject with the code `MATH`. -/
theorem createSubject_duplicate_witness :
    (∃ x ∈ schoolDb.subjects, x.code = "MATH") ∧
      (createSubject schoolDb
        { name := "Maths II", code := "MATH", description := none, grade_level := none,
          room := none, teacher_name := none, equipment_fleets := none }).1.status = 400 ∧
      (createSubject schoolDb
        { name := "Maths II", code := "MATH", description := none, grade_level := none,
          room := none, teacher_name := none, equipment_fleets := none }).2 = schoolDb ∧
      (createSubject schoolDb
        { name := "Maths II", code := "MATH", description := none, grade_level := none,
          room := none, teacher_name := none, equipment_fleets := none }).2.subjects =
        schoolDb.subjects :=
  ⟨⟨mathSubject, by decide, rfl⟩,
    createSubject_duplicate schoolDb
      { name := "Maths II", code := "MATH", description := none, grade_level := none,
        room := none, teacher_name := none, equipment_fleets := none }
      ⟨mathSubject, by decide, rfl⟩⟩

/-- C13: for a stored lesson plan and a caller who is not its creating teacher,
whatever the caller's role, an admin or not, the update and the delete are
answered 404 and leave the database, the plan included, as it was. -/
theorem lessonPlan_ownership (db : Db) (user : User) (b : PlanInput)
    (plan : LessonPlan) (hplan : plan ∈ db.lesson_plans)
    (hkey : ∀ lp ∈ db.lesson_plans, lp.id = plan.id → lp = plan)
    (hne : user.id ≠ plan.teacher_id) :
    ((updateLessonPlan db user plan.id b).1.status = 404 ∧
        (updateLessonPlan db user plan.id b).2 = db ∧
        plan ∈ (updateLessonPlan db user plan.id b).2.lesson_plans) ∧
      ((deleteLessonPlan db user plan.id).1.status = 404 ∧
        (deleteLessonPlan db user plan.id).2 = db ∧
        plan ∈ (deleteLessonPlan db user plan.id).2.lesson_plans) := by
  have h : ∀ lp ∈ db.lesson_plans, lp.id = plan.id → lp.teacher_id ≠ user.id := by
    intro lp hlp hlpid hteach
    rw [hkey lp hlp hlpid] at hteach
    exact hne hteach.symm
  rw [updateLessonPlan_not_owner db user plan.id b h,
    deleteLessonPlan_not_owner db user plan.id h]
  exact ⟨⟨rfl, rfl, hplan⟩, ⟨rfl, rfl, hplan⟩⟩

/-- C13, witness: teacher 2 updates and deletes the lesson plan 7 of teacher 1. -/
theorem lessonPlan_ownership_witness :
    teacherTwo.role ≠ "admin" ∧ teacherTwo.id ≠ 1 ∧
      ((updateLessonPlan schoolDb teacherTwo 7 (planTitled "Geometry")).1.status = 404 ∧
        (updateLessonPlan schoolDb teacherTwo 7 (planTitled "Geometry")).2 = schoolDb ∧
        { algebra with subject_id := some 5 } ∈
          (updateLessonPlan schoolDb teacherTwo 7 (planTitled "Geometry")).2.lesson_plans) ∧
      ((deleteLessonPlan schoolDb teacherTwo 7).1.status = 404 ∧
        (deleteLessonPlan schoolDb teacherTwo 7).2 = schoolDb ∧
        { algebra with subject_id := some 5 } ∈
          (deleteLessonPlan schoolDb teacherTwo 7).2.lesson_plans) :=
  ⟨by decide, by decide,
    lessonPlan_ownership schoolDb teacherTwo (planTitled "Geometry")
      { algebra with subject_id := some 5 } (by decide)
      (by intro lp hlp _; simpa [schoolDb] using hlp) (by decide)⟩

/-- C14, counterexample: an admin who is not the creating teacher of the lesson plan 7
updates and deletes it; both calls are answered 404 and the plan stays as it was. -/
theorem admin_cannot_mutate :
    adminUser.role = "admin" ∧
      (updateLessonPlan schoolDb adminUser 7 (planTitled "Geometry")).1.status = 404 ∧
      (updateLessonPlan schoolDb adminUser 7 (planTitled "Geometry")).2 = schoolDb ∧
      (deleteLessonPlan schoolDb adminUser 7).1.status = 404 ∧
      (deleteLessonPlan schoolDb adminUser 7).2 = schoolDb := by
  decide

/-- C14, amended: for a stored lesson plan and a caller, an admin included, whose id
is the plan's teacher_id, the update is answered 200 with the plan's row holding the
new field values, which is the row stored, and the delete is answered 200 and leaves
no lesson plan with that id. -/
theorem creator_may_mutate (db : Db) (user : User) (id : Nat) (b : PlanInput)
    (plan : LessonPlan) (hplan : plan ∈ db.lesson_plans) (hid : plan.id = id)
    (hkey : ∀ lp ∈ db.lesson_plans, lp.id = id → lp = plan)
    (hown : plan.teacher_id = user.id) :
    (∃ row, (updateLessonPlan db user id b).1 = PlanResponse.updated row ∧
        (updateLessonPlan db user id b).1.status = 200 ∧
        row ∈ (updateLessonPlan db user id b).2.lesson_plans ∧
        row.id = plan.id ∧ row.teacher_id = plan.teacher_id ∧
        row.subject_id = b.subject_id ∧ row.title = b.title ∧
        row.description = b.description ∧
        row.learning_objectives = b.learning_objectives ∧
        row.lesson_date = b.lesson_date ∧ row.duration_minutes = b.duration_minutes ∧
        row.grade_level = b.grade_level ∧
        row.required_equipment = b.required_equipment.getD [] ∧
        row.start_date = b.start_date ∧ row.end_date = b.end_date) ∧
      ((deleteLessonPlan db user id).1 =
          PlanResponse.deleted "Lesson plan deleted successfully" ∧
        (deleteLessonPlan db user id).1.status = 200 ∧
        ∀ lp ∈ (deleteLessonPlan db user id).2.lesson_plans, lp.id ≠ id) := by
  obtain ⟨rest, hf⟩ := filter_ownedBy_head db user id plan hplan hid hkey hown
  have hownb : ownedBy user id plan = true := (ownedBy_iff user id plan).2 ⟨hid, hown⟩
  constructor
  · have hu : (updateLessonPlan db user id b).1 = PlanResponse.updated (applyUpdate plan b) := by
      unfold updateLessonPlan
      simp only [hf, List.map_cons]
    refine ⟨applyUpdate plan b, hu, by rw [hu]; rfl, ?_, rfl, rfl, rfl, rfl, rfl, rfl, rfl,
      rfl, rfl, rfl, rfl, rfl⟩
    unfold updateLessonPlan
    simp only [hf, List.map_cons]
    exact List.mem_map.2 ⟨plan, hplan, by rw [if_pos hownb]⟩
  · have hd : deleteLessonPlan db user id =
        (PlanResponse.deleted "Lesson plan deleted successfully",
          { db with lesson_plans := db.lesson_plans.filter (fun lp => !(ownedBy user id lp)) }) := by
      unfold deleteLessonPlan
      simp only [hf]
    rw [hd]
    refine ⟨rfl, rfl, ?_⟩
    intro lp hlp hlpid
    obtain ⟨h1, h2⟩ := List.mem_filter.1 hlp
    have hlpp : lp = plan := hkey lp h1 hlpid
    rw [hlpp, hownb] at h2
    simp at h2

/-- C14, witness: teacher 1, the creator of the lesson plan 7, updates and deletes it. -/
theorem creator_may_mutate_witness :
    (updateLessonPlan schoolDb teacherOne 7 (planTitled "Geometry")).1.status = 200 ∧
      (updateLessonPlan schoolDb teacherOne 7 (planTitled "Geometry")).2.lesson_plans.map
        (fun lp => lp.title) = ["Geometry"] ∧
      (deleteLessonPlan schoolDb teacherOne 7).2.lesson_plans = [] ∧
      ((deleteLessonPlan schoolDb teacherOne 7).1 =
          PlanResponse.deleted "Lesson plan deleted successfully" ∧
        (deleteLessonPlan schoolDb teacherOne 7).1.status = 200 ∧
        ∀ lp ∈ (deleteLessonPlan schoolDb teacherOne 7).2.lesson_plans, lp.id ≠ 7) :=
  ⟨by decide, by decide, by decide,
    (creator_may_mutate schoolDb teacherOne 7 (planTitled "Geometry")
      { algebra with subject_id := some 5 } (by decide) rfl
      (by intro lp hlp _; simpa [schoolDb] using hlp) rfl).2⟩

/-- C15: when the inserts of the first plans of the list succeed and the insert of
the next plan fails, the bulk route answers 500 and leaves a database whose lesson
plans are the former ones followed by one row for each of those first plans, in
order, owned by the caller; nothing is stored for the failing plan or a later one. -/
theorem bulk_not_atomic (constraints : Db → LessonPlan → Bool) (db : Db) (user : User)
    (pre : List PlanInput) (p : PlanInput) (post : List PlanInput)
    (rows : List LessonPlan) (db1 : Db)
    (hpre : bulkLoop constraints user pre db [] = (some rows, db1))
    (hfail : insertLessonPlan constraints db1 (bulkPlanRow db1.lesson_plans user p) = none) :
    bulkCreateLessonPlans constraints db user (some (pre ++ p :: post)) =
        (PlanResponse.serverError "Failed to create lesson plans", db1) ∧
      (bulkCreateLessonPlans constraints db user (some (pre ++ p :: post))).1.status = 500 ∧
      db1.lesson_plans = db.lesson_plans ++ rows ∧
      rows.length = pre.length ∧
      rows.map (fun lp => lp.title) = pre.map (fun plan => plan.title) ∧
      ∀ lp ∈ rows, lp.teacher_id = user.id := by
  have hbulk : bulkCreateLessonPlans constraints db user (some (pre ++ p :: post)) =
      (PlanResponse.serverError "Failed to create lesson plans", db1) := by
    rw [bulkCreate_cons constraints db user (pre ++ p :: post) (by simp),
      bulkLoop_append, hpre]
    simp only
    rw [bulkLoop_cons, hfail]
  obtain ⟨new, h1, h2, _, _, _, h6, h7⟩ :=
    bulkLoop_success constraints user pre db [] rows db1 hpre
  rw [List.nil_append] at h1
  subst h1
  refine ⟨hbulk, by rw [hbulk]; rfl, h2, ?_, h6, h7⟩
  have hlen := congrArg List.length h6
  simpa using hlen

/-- C15, witness: of three plans the second has an empty title, which the table
refuses; the answer is 500 and the first plan alone is stored after the former one. -/
theorem bulk_not_atomic_witness :
    bulkLoop titleRequired teacherOne [planTitled "Sets"] schoolDb [] =
        (some [bulkPlanRow schoolDb.lesson_plans teacherOne (planTitled "Sets")],
          { schoolDb with
            lesson_plans := schoolDb.lesson_plans ++
              [bulkPlanRow schoolDb.lesson_plans teacherOne (planTitled "Sets")] }) ∧
      (bulkCreateLessonPlans titleRequired schoolDb teacherOne
        (some [planTitled "Sets", planTitled "", planTitled "Groups"])).2.lesson_plans.map
          (fun lp => lp.title) = ["Algebra", "Sets"] ∧
      (bulkCreateLessonPlans titleRequired schoolDb teacherOne
        (some ([planTitled "Sets"] ++ planTitled "" :: [planTitled "Groups"]))).1.status =
        500 :=
  ⟨by decide, by decide,
    (bulk_not_atomic titleRequired schoolDb teacherOne [planTitled "Sets"] (planTitled "")
      [planTitled "Groups"]
      [bulkPlanRow schoolDb.lesson_plans teacherOne (planTitled "Sets")]
      { schoolDb with
        lesson_plans := schoolDb.lesson_plans ++
          [bulkPlanRow schoolDb.lesson_plans teacherOne (planTitled "Sets")] }
      (by decide) (by decide)).2.1⟩

/-- C16: the fleet summary has one row for each triple of derived base serial, name
and type that occurs among the items with a serial number, and no two rows for the
same triple; a row's total_count is the number of items with that triple and its
available_count the number of those with status `available`, which is at most the
total; the total_counts add up to the number of items with a serial number. -/
theorem fleetsQuery_spec (equipment : List Equipment) :
    ((fleetsQuery equipment).map FleetRow.key).Nodup ∧
      (∀ k, k ∈ (fleetsQuery equipment).map FleetRow.key ↔
        ∃ e ∈ equipment, fleetKey e = some k) ∧
      (∀ row ∈ fleetsQuery equipment,
        row.total_count = equipment.countP (fun e => decide (fleetKey e = some row.key)) ∧
        row.available_count =
          equipment.countP
            (fun e => decide (fleetKey e = some row.key) && e.status == "available") ∧
        row.available_count ≤ row.total_count) ∧
      ((fleetsQuery equipment).map (fun row => row.total_count)).sum =
        equipment.countP (fun e => e.serial_number.isSome) := by
  have hkeys := fleetsQuery_keys_perm equipment
  refine ⟨hkeys.nodup_iff.2 (List.nodup_dedup _), ?_, ?_, ?_⟩
  · intro k
    rw [hkeys.mem_iff, List.mem_dedup]
    exact mem_fleetInput_keys equipment k
  · intro row hrow
    have hrow' := (fleetsQuery_perm equipment).subset hrow
    obtain ⟨k, _, rfl⟩ := List.mem_map.1 hrow'
    have htotal : (fleetGroup (fleetInput equipment) k).total_count =
        equipment.countP (fun e => decide (fleetKey e = some k)) := by
      show ((fleetInput equipment).filter (fun x => decide (x.1 = k))).length = _
      rw [fleetInput_filter_length]
      congr 1
      funext e
      cases fleetKey e <;> simp
    have havail : (fleetGroup (fleetInput equipment) k).available_count =
        equipment.countP
          (fun e => decide (fleetKey e = some k) && e.status == "available") := by
      show ((fleetInput equipment).filter
        (fun x => decide (x.1 = k) && x.2 == "available")).length = _
      rw [fleetInput_filter_length]
      congr 1
      funext e
      cases fleetKey e <;> simp
    rw [fleetGroup_key]
    refine ⟨htotal, havail, ?_⟩
    rw [htotal, havail]
    apply List.countP_mono_left
    intro e _ he
    rw [Bool.and_eq_true] at he
    exact he.1
  · rw [((fleetsQuery_perm equipment).map (fun row => row.total_count)).sum_eq, List.map_map,
      ← fleetInput_length, ← List.length_map (fleetInput equipment) Prod.fst,
      ← List.sum_map_count_dedup_eq_length ((fleetInput equipment).map Prod.fst)]
    congr 1
    apply List.map_congr_left
    intro k _
    exact (count_map_fst (fleetInput equipment) k).symm

/-- C16, witness: two laptops of the fleet `LAP`, one of them available, and the
laptop `LAPTOP9` give two rows, with counts 2 and 1, and 1 and 1. -/
theorem fleetsQuery_spec_witness :
    fleetsQuery schoolDb.equipment =
        [{ base_serial := "LAP", name := "Laptop", type := "laptop", total_count := 2,
           available_count := 1 },
         { base_serial := "LAPTOP9", name := "Laptop", type := "laptop", total_count := 1,
           available_count := 1 }] ∧
      ((fleetsQuery schoolDb.equipment).map FleetRow.key).Nodup :=
  ⟨by decide, (fleetsQuery_spec schoolDb.equipment).1⟩

/-- C17, counterexample: the requested `LAP001` is checked out and the allocator
falls back to `LAPTOP001`, whose derived base serial `LAPTOP` is not the base serial
`LAP` of the requested item. -/
theorem fallback_leaves_fleet :
    mixedDb.equipment.find? (fun x => x.id == 1) = some (laptop 1 "LAP001" "checked_out") ∧
      ¬ Eligible mixedDb.requests 1 5 (laptop 1 "LAP001" "checked_out") ∧
      equipmentToRequest mixedDb 1 5 1 = some (laptop 2 "LAPTOP001" "available") ∧
      baseSerial (laptop 1 "LAP001" "checked_out").serial_number = some "LAP" ∧
      baseSerial (laptop 2 "LAPTOP001" "available").serial_number = some "LAPTOP" ∧
      baseSerial (laptop 2 "LAPTOP001" "available").serial_number ≠
        baseSerial (laptop 1 "LAP001" "checked_out").serial_number :=
  ⟨by decide, fun h => absurd h.1 (by decide), by decide, by decide, by decide, by decide⟩

/-- C17, amended: when the requested item is not eligible and its base serial holds
none of `%`, `_` and the backslash, the item the allocator reserves by fallback is an
eligible item of the inventory whose serial number starts with the base serial of
the requested item. -/
theorem fallback_starts_with_base (db : Db) (s e : Int) (id : Nat) (item chosen : Equipment)
    (b : String)
    (hfind : db.equipment.find? (fun x => x.id == id) = some item)
    (hne : ¬ Eligible db.requests s e item)
    (hb : baseSerial item.serial_number = some b)
    (hplain : PlainSerial b)
    (hres : equipmentToRequest db s e id = some chosen) :
    SerialStartsWith b chosen ∧ chosen ∈ db.equipment ∧ Eligible db.requests s e chosen := by
  rw [equipmentToRequest_closed, hfind] at hres
  simp only at hres
  rw [if_neg (fun hh => hne ⟨hh.1, (isFree_iff _ _ _ _).1 hh.2⟩), hb] at hres
  simp only at hres
  split at hres
  · simp at hres
  · cases hf : fleetItems db s e b with
    | nil => rw [hf] at hres; simp at hres
    | cons r rs =>
      rw [hf] at hres
      simp only [Option.some.injEq] at hres
      subst hres
      obtain ⟨_, hmem, _⟩ := fleetItems_cons db s e b r rs hf
      obtain ⟨_, h5, h6, h7⟩ := (mem_fleetCandidates db s e b r).1 hmem
      exact ⟨(serialLike_plain b hplain r.equipment).1 h6, h5, h7⟩

/-- C17, witness: the fallback for `LAP001` reserves `LAPTOP001`, whose serial number
starts with `LAP`. -/
theorem fallback_starts_with_base_witness :
    equipmentToRequest mixedDb 1 5 1 = some (laptop 2 "LAPTOP001" "available") ∧
      SerialStartsWith "LAP" (laptop 2 "LAPTOP001" "available") ∧
      laptop 2 "LAPTOP001" "available" ∈ mixedDb.equipment ∧
      Eligible mixedDb.requests 1 5 (laptop 2 "LAPTOP001" "available") :=
  ⟨by decide,
    fallback_starts_with_base mixedDb 1 5 1 (laptop 1 "LAP001" "checked_out")
      (laptop 2 "LAPTOP001" "available") "LAP" (by decide)
      (fun h => absurd h.1 (by decide)) (by decide) (by unfold PlainSerial; decide)
      (by decide)⟩

/-- C18, the code at the failing inputs: for the base serial `A_1` the fleet query
returns `AB1`, and for the base serial `A%B` the allocator and the next-available
route return `AXYB7`; neither serial number starts with the base serial. -/
theorem fleet_search_beyond_base :
    fleetItems wildDb 1 5 "A_1" =
        [{ equipment := laptop 2 "AB1" "available", has_pending_request := false }] ∧
      ¬ SerialStartsWith "A_1" (laptop 2 "AB1" "available") ∧
      baseSerial (laptop 1 "A%B" "checked_out").serial_number = some "A%B" ∧
      equipmentToRequest percentDb 1 5 1 = some (laptop 2 "AXYB7" "available") ∧
      nextAvailable percentDb "A%B" 1 5 =
        NextAvailableResponse.ok
          { equipment := laptop 2 "AXYB7" "available", has_pending_request := false } ∧
      ¬ SerialStartsWith "A%B" (laptop 2 "AXYB7" "available") := by
  refine ⟨by decide, ?_, by decide, by decide, by decide, ?_⟩
  · rintro ⟨t, ht, hp⟩
    cases ht
    exact absurd hp (by decide)
  · rintro ⟨t, ht, hp⟩
    cases ht
    exact absurd hp (by decide)

/-- C19: for a reservation from a to b with a <= b and a requested range from s to e
with s <= e, the overlap test of the join holds exactly when some date lies in both
ranges; ranges that share only an end point overlap; the test is symmetric in the
two ranges; and for a pending or approved reservation of the item the join condition
of the queries is this test. -/
theorem overlap_is_intersection (r : Reservation) (s e : Int)
    (hr : r.start_date ≤ r.end_date) (hse : s ≤ e) :
    (Overlaps s e r ↔ ∃ d : Int, r.start_date ≤ d ∧ d ≤ r.end_date ∧ s ≤ d ∧ d ≤ e) ∧
      (r.end_date = s → Overlaps s e r) ∧
      (r.start_date = e → Overlaps s e r) ∧
      (Overlaps s e r ↔
        Overlaps r.start_date r.end_date { r with start_date := s, end_date := e }) ∧
      (∀ x : Equipment, r.equipment_id = x.id → Blocking r →
        (joinCond s e x r = true ↔
          ∃ d : Int, r.start_date ≤ d ∧ d ≤ r.end_date ∧ s ≤ d ∧ d ≤ e)) := by
  have hiff : Overlaps s e r ↔
      ∃ d : Int, r.start_date ≤ d ∧ d ≤ r.end_date ∧ s ≤ d ∧ d ≤ e := by
    unfold Overlaps
    constructor
    · rintro ⟨h1, h2⟩
      by_cases hc : r.start_date ≤ s
      · exact ⟨s, hc, h2, le_refl s, hse⟩
      · exact ⟨r.start_date, le_refl _, hr, by omega, h1⟩
    · rintro ⟨d, h1, h2, h3, h4⟩
      exact ⟨by omega, by omega⟩
  refine ⟨hiff, ?_, ?_, ?_, ?_⟩
  · intro h
    unfold Overlaps
    exact ⟨by omega, by omega⟩
  · intro h
    unfold Overlaps
    exact ⟨by omega, by omega⟩
  · unfold Overlaps
    simp only [ge_iff_le]
    constructor
    · rintro ⟨h1, h2⟩
      exact ⟨h2, h1⟩
    · rintro ⟨h1, h2⟩
      exact ⟨h2, h1⟩
  · intro x hx hb
    rw [joinCond_iff, ← hiff]
    exact ⟨fun h => h.2.2, fun h => ⟨hx, hb, h⟩⟩

/-- C19, witness: an approved reservation for days 1 to 5 and a request for days 5
to 9 share day 5 only, and they overlap. -/
theorem overlap_is_intersection_witness :
    Overlaps 5 9 { id := 1, user_id := 9, equipment_id := 2, start_date := 1, end_date := 5,
                   status := "approved", notes := none } ∧
      joinCond 5 9 (laptop 2 "LAP002" "available")
        { id := 1, user_id := 9, equipment_id := 2, start_date := 1, end_date := 5,
          status := "approved", notes := none } = true :=
  ⟨(overlap_is_intersection
      { id := 1, user_id := 9, equipment_id := 2, start_date := 1, end_date := 5,
        status := "approved", notes := none } 5 9 (by decide) (by decide)).2.1 rfl,
    by decide⟩

/-- C20: when two ledgers hold the same pending and approved reservations, whatever
reservations of another status each holds, the allocator resolves every requested id
to the same item, or to none in both, over the same inventory and date range. -/
theorem nonblocking_irrelevant (db : Db) (l1 l2 : List Reservation) (s e : Int) (id : Nat)
    (h : ∀ r, Blocking r → (r ∈ l1 ↔ r ∈ l2)) :
    equipmentToRequest { db with requests := l1 } s e id =
      equipmentToRequest { db with requests := l2 } s e id := by
  have hfree : ∀ x, isFree l1 s e x = isFree l2 s e x :=
    fun x => isFree_congr l1 l2 s e x h
  have hfleet : ∀ b, fleetItems { db with requests := l1 } s e b =
      fleetItems { db with requests := l2 } s e b := by
    intro b
    rw [fleetItems_eq, fleetItems_eq, fleetCandidates_closed, fleetCandidates_closed]
    simp only [hfree]
  rw [equipmentToRequest_closed, equipmentToRequest_closed]
  simp only [hfree, hfleet]

/-- C20, witness: adding a rejected reservation on `LAP003` for the requested days to
the ledger leaves the resolution of the id of `LAP001` at `LAP003`. -/
theorem nonblocking_irrelevant_witness :
    equipmentToRequest bookedDb 3 8 1 = some (laptop 3 "LAP003" "available") ∧
      equipmentToRequest { bookedDb with requests := bookedDb.requests } 3 8 1 =
        equipmentToRequest
          { bookedDb with
            requests := bookedDb.requests ++
              [{ id := 2, user_id := 9, equipment_id := 3, start_date := 3, end_date := 8,
                 status := "rejected", notes := none }] } 3 8 1 :=
  ⟨by decide,
    nonblocking_irrelevant bookedDb bookedDb.requests
      (bookedDb.requests ++
        [{ id := 2, user_id := 9, equipment_id := 3, start_date := 3, end_date := 8,
           status := "rejected", notes := none }]) 3 8 1
      (by
        intro r hb
        constructor
        · intro hr
          exact List.mem_append_left _ hr
        · intro hr
          rcases List.mem_append.1 hr with h1 | h2
          · exact h1
          · rw [List.mem_singleton] at h2
            subst h2
            exact absurd hb (by unfold Blocking; decide))⟩

/-- C21: when no two items of the inventory share a serial number, the row the fleet
query returns is the same for every order of the inventory rows and of the ledger
rows, whatever the base serial; and when no two items share an id either, so is the
item the allocator resolves a requested id to. -/
theorem fleet_choice_order_independent (db1 db2 : Db) (s e : Int)
    (heq : db1.equipment.Perm db2.equipment) (hreq : db1.requests.Perm db2.requests)
    (hdist : ∀ a ∈ db1.equipment, ∀ b ∈ db1.equipment,
      a.serial_number = b.serial_number → a.serial_number ≠ none → a = b) :
    (∀ b, fleetItems db1 s e b = fleetItems db2 s e b) ∧
      ((∀ a ∈ db1.equipment, ∀ b ∈ db1.equipment, a.id = b.id → a = b) →
        ∀ id, equipmentToRequest db1 s e id = equipmentToRequest db2 s e id) := by
  have hfleet : ∀ b, fleetItems db1 s e b = fleetItems db2 s e b := by
    intro b
    have hmem := mem_fleetCandidates_congr db1 db2 s e b heq hreq
    cases h1 : fleetItems db1 s e b with
    | nil =>
      have hc1 := (fleetItems_eq_nil db1 s e b).1 h1
      symm
      rw [fleetItems_eq_nil]
      apply List.eq_nil_iff_forall_not_mem.2
      intro row hrow
      have := (hmem row).2 hrow
      rw [hc1] at this
      exact absurd this (List.not_mem_nil _)
    | cons r1 rest1 =>
      obtain ⟨hrest1, hr1, hmin1⟩ := fleetItems_cons db1 s e b r1 rest1 h1
      cases h2 : fleetItems db2 s e b with
      | nil =>
        have hc2 := (fleetItems_eq_nil db2 s e b).1 h2
        have := (hmem r1).1 hr1
        rw [hc2] at this
        exact absurd this (List.not_mem_nil _)
      | cons r2 rest2 =>
        obtain ⟨hrest2, hr2, hmin2⟩ := fleetItems_cons db2 s e b r2 rest2 h2
        have hle12 : serialLe r1 r2 := hmin1 r2 ((hmem r2).2 hr2)
        have hle21 : serialLe r2 r1 := hmin2 r1 ((hmem r1).1 hr1)
        have hkey : serialKey r1 = serialKey r2 := le_antisymm hle12 hle21
        obtain ⟨t1, hs1, hk1⟩ := fleetCandidates_serial db1 s e b r1 hr1
        obtain ⟨t2, hs2, hk2⟩ := fleetCandidates_serial db2 s e b r2 hr2
        have ht : t1 = t2 := String.ext (by rw [← hk1, ← hk2, hkey])
        obtain ⟨hp1, he1, _, _⟩ := (mem_fleetCandidates db1 s e b r1).1 hr1
        obtain ⟨hp2, he2, _, _⟩ := (mem_fleetCandidates db2 s e b r2).1 hr2
        have heqv : r1.equipment = r2.equipment :=
          hdist r1.equipment he1 r2.equipment (heq.mem_iff.2 he2)
            (by rw [hs1, hs2, ht]) (by rw [hs1]; simp)
        have hrow : r1 = r2 := by
          cases r1
          cases r2
          simp only at hp1 hp2 heqv
          rw [hp1, hp2, heqv]
        rw [hrow, hrest1, hrest2]
  refine ⟨hfleet, ?_⟩
  intro hid id
  have hfree : ∀ x, isFree db1.requests s e x = isFree db2.requests s e x :=
    fun x => isFree_congr db1.requests db2.requests s e x (fun r _ => hreq.mem_iff)
  have hfind : db1.equipment.find? (fun x => x.id == id) =
      db2.equipment.find? (fun x => x.id == id) := by
    apply find?_perm_of_unique _ _ _ heq
    intro a ha c hc hpa hpc
    have h1 : a.id = id := by simpa using hpa
    have h2 : c.id = id := by simpa using hpc
    exact hid a ha c hc (by rw [h1, h2])
  rw [equipmentToRequest_closed, equipmentToRequest_closed, hfind]
  simp only [hfree, hfleet]

/-- C21, witness: with the three laptops in another row order the fleet query for
`LAP` still returns `LAP002`. -/
theorem fleet_choice_order_independent_witness :
    fleetItems lapDb 1 5 "LAP" =
        [{ equipment := laptop 2 "LAP002" "available", has_pending_request := false }] ∧
      (∀ b, fleetItems lapDb 1 5 b = fleetItems shuffledDb 1 5 b) ∧
      ((∀ a ∈ lapDb.equipment, ∀ b ∈ lapDb.equipment, a.id = b.id → a = b) →
        ∀ id, equipmentToRequest lapDb 1 5 id = equipmentToRequest shuffledDb 1 5 id) :=
  ⟨by decide,
    fleet_choice_order_independent lapDb shuffledDb 1 5
      (by
        show [laptop 1 "LAP001" "checked_out", laptop 2 "LAP002" "available",
          laptop 3 "LAP003" "available"].Perm
          [laptop 3 "LAP003" "available", laptop 2 "LAP002" "available",
            laptop 1 "LAP001" "checked_out"]
        exact (List.reverse_perm _).symm)
      (List.Perm.refl _)
      (by
        intro a ha b hb hab _
        have ha' : a = laptop 1 "LAP001" "checked_out" ∨ a = laptop 2 "LAP002" "available" ∨
            a = laptop 3 "LAP003" "available" := by simpa [lapDb] using ha
        have hb' : b = laptop 1 "LAP001" "checked_out" ∨ b = laptop 2 "LAP002" "available" ∨
            b = laptop 3 "LAP003" "available" := by simpa [lapDb] using hb
        rcases ha' with rfl | rfl | rfl <;> rcases hb' with rfl | rfl | rfl <;>
          first
          | rfl
          | exact absurd hab (by decide))⟩

/-- C22, the code at the failing input: a caller whose role is teacher, not admin,
passes the role check of the delete-subject route, and the subject 5, which no lesson
plan references, is deleted. -/
theorem teacher_deletes_subject :
    teacherOne.role = "teacher" ∧ teacherOne.role ≠ "admin" ∧
      mathSubject ∈ idleDb.subjects ∧
      (deleteSubjectRoute idleDb teacherOne 5).1 =
        some (SubjectResponse.deleted "Subject deleted successfully") ∧
      (deleteSubjectRoute idleDb teacherOne 5).2.subjects = [] := by
  decide

/-- C23: for every serial-number string the allocator's derivation, the removal of a
trailing match of three digits, returns the string the SQL derivation of the
curriculum summary and of the fleet-assignment utility returns; so the allocator's
base serial of a non-empty serial number is the SQL one. -/
theorem base_serial_derivations_agree (s : String) :
    replaceTrailingDigits3 s.data = sqlBaseSerial s.data ∧
      (s ≠ "" → baseSerial (some s) = some (String.mk (sqlBaseSerial s.data))) := by
  have hfun : (fun c : Char => decide ('0' ≤ c ∧ c ≤ '9')) = Char.isDigit :=
    funext (fun c => (isDigit_eq_range c).symm)
  have hagree : replaceTrailingDigits3 s.data = sqlBaseSerial s.data := by
    unfold replaceTrailingDigits3 sqlBaseSerial
    simp only [hfun, List.length_drop]
    have htake : (max ((s.data.length : Int) - 3) 0).toNat = s.data.length - 3 := by omega
    rw [htake]
    by_cases hlen : 3 ≤ s.data.length
    · have h3 : s.data.length - (s.data.length - 3) = 3 := by omega
      by_cases hd : (s.data.drop (s.data.length - 3)).all Char.isDigit = true
      · rw [if_pos ⟨hlen, hd⟩, if_pos ⟨h3, hd⟩]
      · rw [if_neg (fun h => hd h.2), if_neg (fun h => hd h.2)]
    · have h3 : ¬ s.data.length - (s.data.length - 3) = 3 := by omega
      rw [if_neg (fun h => hlen h.1), if_neg (fun h => h3 h.1)]
  refine ⟨hagree, ?_⟩
  intro hne
  unfold baseSerial
  simp only
  rw [if_neg hne, hagree]

/-- C23, witness: both derivations give `LAP` for `LAP001`. -/
theorem base_serial_derivations_agree_witness :
    sqlBaseSerial "LAP001".data = "LAP".data ∧
      replaceTrailingDigits3 "LAP001".data = sqlBaseSerial "LAP001".data ∧
      baseSerial (some "LAP001") = some (String.mk (sqlBaseSerial "LAP001".data)) :=
  ⟨by decide, (base_serial_derivations_agree "LAP001").1,
    (base_serial_derivations_agree "LAP001").2 (by decide)⟩

/-- C24: when the requested item, the only item with its id, is not eligible and the
allocator resolves its id to an item, that item is another one and its id differs
from the requested id. -/
theorem fallback_not_requested (db : Db) (s e : Int) (item chosen : Equipment)
    (hkey : ∀ x ∈ db.equipment, x.id = item.id → x = item)
    (hne : ¬ Eligible db.requests s e item)
    (hres : equipmentToRequest db s e item.id = some chosen) :
    chosen.id ≠ item.id ∧ chosen ≠ item := by
  obtain ⟨hmem, helig⟩ := equipmentToRequest_eligible db s e item.id chosen hres
  have hdiff : chosen ≠ item := by
    intro h
    rw [h] at helig
    exact hne helig
  exact ⟨fun hid => hdiff (hkey chosen hmem hid), hdiff⟩

/-- C24, witness: the id 1 of the checked-out `LAP001` resolves to `LAP002`, of id 2. -/
theorem fallback_not_requested_witness :
    laptop 1 "LAP001" "checked_out" ∈ lapDb.equipment ∧
      equipmentToRequest lapDb 1 5 (laptop 1 "LAP001" "checked_out").id =
        some (laptop 2 "LAP002" "available") ∧
      (laptop 2 "LAP002" "available").id ≠ (laptop 1 "LAP001" "checked_out").id ∧
      laptop 2 "LAP002" "available" ≠ laptop 1 "LAP001" "checked_out" :=
  ⟨by decide, by decide,
    fallback_not_requested lapDb 1 5 (laptop 1 "LAP001" "checked_out")
      (laptop 2 "LAP002" "available")
      (by
        intro x hx hid
        have hx' : x = laptop 1 "LAP001" "checked_out" ∨ x = laptop 2 "LAP002" "available" ∨
            x = laptop 3 "LAP003" "available" := by simpa [lapDb] using hx
        rcases hx' with rfl | rfl | rfl
        · rfl
        · exact absurd hid (by decide)
        · exact absurd hid (by decide))
      (fun h => absurd h.1 (by decide)) (by decide)⟩

/-- C25, counterexample: a call for a missing lesson plan completes with 404, not
with a server error; one id was requested, no reservation was created and the
response carries no skip entry. -/
theorem missing_plan_has_no_outcome :
    (requestEquipment lapDb 9 8 [2] 1 5 none).1.status = 404 ∧
      (requestEquipment lapDb 9 8 [2] 1 5 none).2.requests = lapDb.requests ∧
      (requestEquipment lapDb 9 8 [2] 1 5 none).1.requestsList.length +
        (requestEquipment lapDb 9 8 [2] 1 5 none).1.skippedList.length ≠ [2].length := by
  decide

/-- C25, amended: for a call whose lesson plan exists, the created reservations and
the skip entries of the response are together as many as the requested ids, the
skip entries name ids of the request in request order, the ledger grows by the rows
of the created reservations, and the message of the 201 response states the two
counts. -/
theorem one_outcome_per_id (db : Db) (user_id id : Nat) (equipment_ids : List Nat)
    (s e : Int) (notes : Option String) (lesson : LessonPlan) (rest : List LessonPlan)
    (hlesson : db.lesson_plans.filter (fun lp => lp.id == id) = lesson :: rest) :
    (requestEquipment db user_id id equipment_ids s e notes).1.requestsList.length +
        (requestEquipment db user_id id equipment_ids s e notes).1.skippedList.length =
        equipment_ids.length ∧
      ((requestEquipment db user_id id equipment_ids s e notes).1.skippedList.map
        (fun x => x.equipment_id)).Sublist equipment_ids ∧
      (requestEquipment db user_id id equipment_ids s e notes).2.requests =
        db.requests ++
          (requestEquipment db user_id id equipment_ids s e notes).1.requestsList.map
            (fun x => x.request) ∧
      (∀ requests skipped lp message,
        (requestEquipment db user_id id equipment_ids s e notes).1 =
          Response.created requests skipped lp message →
        message = toString requests.length ++ " requests created, " ++
          toString skipped.length ++ " items skipped") := by
  have hcount := runLoop_count db user_id s e notes lesson equipment_ids
  obtain ⟨hledger, hsub⟩ := runLoop_trace db user_id s e notes lesson equipment_ids
  rw [requestEquipment_of_lesson db user_id id equipment_ids s e notes lesson rest hlesson]
  split
  · rename_i hc
    have hnil : (runLoop db user_id s e notes lesson equipment_ids).requests = [] :=
      List.length_eq_zero.1 hc.1
    refine ⟨?_, hsub, ?_, ?_⟩
    · show ([] : List RequestEntry).length +
        (runLoop db user_id s e notes lesson equipment_ids).skipped.length = _
      rw [List.length_nil]
      omega
    · rw [hledger, hnil]
      rfl
    · intro requests skipped lp message h
      cases h
  · refine ⟨hcount, hsub, hledger, ?_⟩
    intro requests skipped lp message h
    simp only [Response.created.injEq] at h
    obtain ⟨h1, h2, _, h4⟩ := h
    rw [← h1, ← h2, ← h4]

/-- C25, witness: of the ids 1, 99 and 1 requested in the scenario of the
specification, two are reserved and 99 is skipped. -/
theorem one_outcome_per_id_witness :
    (requestEquipment lapDb 9 7 [1, 99, 1] 1 5 none).1.requestsList.length = 2 ∧
      (requestEquipment lapDb 9 7 [1, 99, 1] 1 5 none).1.skippedList.map
        (fun x => x.equipment_id) = [99] ∧
      ((requestEquipment lapDb 9 7 [1, 99, 1] 1 5 none).1.requestsList.length +
          (requestEquipment lapDb 9 7 [1, 99, 1] 1 5 none).1.skippedList.length =
          [1, 99, 1].length ∧
        ((requestEquipment lapDb 9 7 [1, 99, 1] 1 5 none).1.skippedList.map
          (fun x => x.equipment_id)).Sublist [1, 99, 1] ∧
        (requestEquipment lapDb 9 7 [1, 99, 1] 1 5 none).2.requests =
          lapDb.requests ++
            (requestEquipment lapDb 9 7 [1, 99, 1] 1 5 none).1.requestsList.map
              (fun x => x.request) ∧
        (∀ requests skipped lp message,
          (requestEquipment lapDb 9 7 [1, 99, 1] 1 5 none).1 =
            Response.created requests skipped lp message →
          message = toString requests.length ++ " requests created, " ++
            toString skipped.length ++ " items skipped")) :=
  ⟨by decide, by decide, one_outcome_per_id lapDb 9 7 [1, 99, 1] 1 5 none algebra []
    (by decide)⟩

/-- C26: when the requested item exists and is not eligible, and its serial number
is null, is empty, or is exactly three digits, the allocator resolves the id to
nothing, whatever the rest of the inventory holds, and the iteration records the
skip for that id and leaves the database and the created requests as they were. -/
theorem no_search_without_base (user_id : Nat) (s e : Int) (notes : Option String)
    (lesson : LessonPlan) (st : LoopState) (id : Nat) (item : Equipment)
    (hfind : st.db.equipment.find? (fun x => x.id == id) = some item)
    (hne : ¬ Eligible st.db.requests s e item)
    (hserial : item.serial_number = none ∨ item.serial_number = some "" ∨
      ∃ t : String, item.serial_number = some t ∧ t.data.length = 3 ∧
        t.data.all Char.isDigit = true) :
    equipmentToRequest st.db s e id = none ∧
      (loopBody user_id s e notes lesson st id).db = st.db ∧
      (loopBody user_id s e notes lesson st id).requests = st.requests ∧
      (loopBody user_id s e notes lesson st id).skipped = st.skipped ++
        [{ equipment_id := id, reason := "No available items in fleet for this period" }] := by
  have hbase : baseSerial item.serial_number = none ∨
      baseSerial item.serial_number = some "" := by
    rcases hserial with h | h | ⟨t, h, hlen, hall⟩
    · left
      rw [h]
      rfl
    · left
      rw [h]
      rfl
    · rw [h]
      unfold baseSerial
      simp only
      by_cases ht : t = ""
      · left
        rw [if_pos ht]
      · right
        rw [if_neg ht]
        have hrep : replaceTrailingDigits3 t.data = [] := by
          unfold replaceTrailingDigits3
          rw [hlen]
          have hdrop : t.data.drop (3 - 3) = t.data := rfl
          rw [hdrop, if_pos ⟨le_refl 3, hall⟩]
          rfl
        rw [hrep]
  have hnone : equipmentToRequest st.db s e id = none := by
    rw [equipmentToRequest_closed, hfind]
    simp only
    rw [if_neg (fun hh => hne ⟨hh.1, (isFree_iff _ _ _ _).1 hh.2⟩)]
    rcases hbase with hb | hb
    · rw [hb]
    · rw [hb]
      exact if_pos rfl
  exact ⟨hnone, loopBody_skip user_id s e notes lesson st id hnone⟩

/-- C26, witness: the checked-out item with the serial number `123` is requested while
`124` is available; the id is skipped. The same holds for the item without a serial
number and for the one with the empty serial number. -/
theorem no_search_without_base_witness :
    equipmentToRequest baselessDb 1 5 1 = none ∧
      equipmentToRequest baselessDb 1 5 2 = none ∧
      Eligible baselessDb.requests 1 5 (laptop 4 "124" "available") ∧
      (equipmentToRequest baselessDb 1 5 3 = none ∧
        (loopBody 9 1 5 none algebra
          { db := baselessDb, requests := [], skipped := [] } 3).db = baselessDb ∧
        (loopBody 9 1 5 none algebra
          { db := baselessDb, requests := [], skipped := [] } 3).requests = [] ∧
        (loopBody 9 1 5 none algebra
          { db := baselessDb, requests := [], skipped := [] } 3).skipped = [] ++
            [{ equipment_id := 3, reason := "No available items in fleet for this period" }]) :=
  ⟨by decide, by decide, ⟨by decide, fun r hr => absurd hr (List.not_mem_nil r)⟩,
    no_search_without_base 9 1 5 none algebra
      { db := baselessDb, requests := [], skipped := [] } 3 (laptop 3 "123" "checked_out")
      (by decide) (fun h => absurd h.1 (by decide))
      (Or.inr (Or.inr ⟨"123", rfl, by decide, by decide⟩))⟩

/-- C27: for a call whose lesson plan exists and whose list of requested ids is empty,
the response is 201 with no created request and no skip entry, and the database, its
ledger included, is as it was. -/
theorem empty_request_list (db : Db) (user_id id : Nat) (s e : Int) (notes : Option String)
    (lesson : LessonPlan) (rest : List LessonPlan)
    (hlesson : db.lesson_plans.filter (fun lp => lp.id == id) = lesson :: rest) :
    (requestEquipment db user_id id [] s e notes).1 =
        Response.created [] [] lesson "0 requests created, 0 items skipped" ∧
      (requestEquipment db user_id id [] s e notes).1.status = 201 ∧
      (requestEquipment db user_id id [] s e notes).2 = db ∧
      (requestEquipment db user_id id [] s e notes).2.requests = db.requests := by
  rw [requestEquipment_of_lesson db user_id id [] s e notes lesson rest hlesson]
  have hloop : runLoop db user_id s e notes lesson [] =
      { db := db, requests := [], skipped := [] } := rfl
  rw [hloop]
  have hcond : ¬ (([] : List RequestEntry).length = 0 ∧ ([] : List Skip).length > 0) := by
    simp
  have hmsg : toString (0 : Nat) ++ " requests created, " ++ toString (0 : Nat) ++
      " items skipped" = "0 requests created, 0 items skipped" := by decide
  rw [if_neg hcond]
  exact ⟨congrArg (Response.created [] [] lesson) hmsg, rfl, rfl, rfl⟩

/-- C27, witness: the empty request for the lesson plan 7. -/
theorem empty_request_list_witness :
    lapDb.lesson_plans.filter (fun lp => lp.id == 7) = algebra :: [] ∧
      (requestEquipment lapDb 9 7 [] 1 5 none).1 =
        Response.created [] [] algebra "0 requests created, 0 items skipped" ∧
      (requestEquipment lapDb 9 7 [] 1 5 none).1.status = 201 ∧
      (requestEquipment lapDb 9 7 [] 1 5 none).2 = lapDb ∧
      (requestEquipment lapDb 9 7 [] 1 5 none).2.requests = lapDb.requests :=
  ⟨by decide, empty_request_list lapDb 9 7 1 5 none algebra [] (by decide)⟩

/-- C28: in the curriculum payload each subject's fleet_count is the number of fleet
rows whose base_serial is in its equipment_fleets list and its total_equipment is
the sum of their total_count; total_equipment_mapped is the sum of total_equipment
over the subjects, which is the sum over the fleet rows of total_count times the
number of subjects that list the row's base_serial. -/
theorem curriculum_totals (subjects : List SubjectRow) (fleets : List FleetRow) :
    (curriculumResponse subjects fleets).subjects.map (fun x => x.fleet_count) =
        subjects.map (fun row => fleets.countP
          (fun f => decide (f.base_serial ∈ row.subject.equipment_fleets.getD []))) ∧
      (curriculumResponse subjects fleets).subjects.map (fun x => x.total_equipment) =
        subjects.map (fun row => ((fleets.filter
          (fun f => decide (f.base_serial ∈ row.subject.equipment_fleets.getD []))).map
            (fun f => f.total_count)).sum) ∧
      (curriculumResponse subjects fleets).summary.total_equipment_mapped =
        ((curriculumResponse subjects fleets).subjects.map
          (fun x => x.total_equipment)).sum ∧
      (curriculumResponse subjects fleets).summary.total_equipment_mapped =
        (fleets.map (fun f =>
          subjects.countP
            (fun row => decide (f.base_serial ∈ row.subject.equipment_fleets.getD [])) *
            f.total_count)).sum := by
  have hlists : ∀ row : SubjectRow, listsFleet row =
      fun f => decide (f.base_serial ∈ row.subject.equipment_fleets.getD []) :=
    fun row => funext (fun f => listsFleet_eq row f)
  have hlists' : ∀ f : FleetRow, (fun row : SubjectRow => listsFleet row f) =
      fun row => decide (f.base_serial ∈ row.subject.equipment_fleets.getD []) :=
    fun f => funext (fun row => listsFleet_eq row f)
  have hsubj : (curriculumResponse subjects fleets).subjects = subjects.map (withFleets fleets) :=
    rfl
  have hmapped : (curriculumResponse subjects fleets).summary.total_equipment_mapped =
      ((subjects.map (withFleets fleets)).map (fun x => x.total_equipment)).sum := by
    show (subjects.map (withFleets fleets)).foldl (fun sum x => sum + x.total_equipment) 0 = _
    rw [foldl_add_eq_sum, Nat.zero_add]
  have htotal : (subjects.map (withFleets fleets)).map (fun x => x.total_equipment) =
      subjects.map (fun row =>
        ((fleets.filter (listsFleet row)).map (fun f => f.total_count)).sum) := by
    rw [List.map_map]
    apply List.map_congr_left
    intro row _
    exact (withFleets_spec fleets row).2
  refine ⟨?_, ?_, ?_, ?_⟩
  · rw [hsubj, List.map_map]
    apply List.map_congr_left
    intro row _
    rw [← hlists row]
    exact (withFleets_spec fleets row).1
  · rw [hsubj, htotal]
    apply List.map_congr_left
    intro row _
    rw [← hlists row]
  · rw [hmapped, hsubj]
  · rw [hmapped, htotal, sum_listed_swap]
    congr 1
    apply List.map_congr_left
    intro f _
    rw [hlists' f]

/-- C28, witness: two subjects list the fleet `LAP` of three laptops, which
contributes twice three to total_equipment_mapped. -/
theorem curriculum_totals_witness :
    (curriculumResponse
        [{ subject := mathSubject, lesson_count := 1 },
         { subject := physicsSubject, lesson_count := 0 }] [lapFleet]).summary.total_equipment_mapped
        = 6 ∧
      (curriculumResponse
        [{ subject := mathSubject, lesson_count := 1 },
         { subject := physicsSubject, lesson_count := 0 }] [lapFleet]).subjects.map
          (fun x => x.fleet_count) = [1, 1] ∧
      (curriculumResponse
        [{ subject := mathSubject, lesson_count := 1 },
         { subject := physicsSubject, lesson_count := 0 }] [lapFleet]).summary.total_equipment_mapped
        = ((curriculumResponse
            [{ subject := mathSubject, lesson_count := 1 },
             { subject := physicsSubject, lesson_count := 0 }] [lapFleet]).subjects.map
              (fun x => x.total_equipment)).sum :=
  ⟨by decide, by decide,
    (curriculum_totals
      [{ subject := mathSubject, lesson_count := 1 },
       { subject := physicsSubject, lesson_count := 0 }] [lapFleet]).2.2.1⟩

/-- C29: the bulk route answers 400 and leaves the database as it was when the plans
value is not an array or is the empty array; for a non-empty array whose inserts
all succeed it answers 201 with the stored rows, one for each plan object in input
order, each holding the plan's fields and the caller as teacher, and these rows are
what the lesson plans grow by. -/
theorem bulk_validates_input (constraints : Db → LessonPlan → Bool) (db : Db) (user : User)
    (plans : List PlanInput) (rows : List LessonPlan) (db' : Db)
    (hne : plans ≠ [])
    (hall : bulkLoop constraints user plans db [] = (some rows, db')) :
    bulkCreateLessonPlans constraints db user none =
        (PlanResponse.badRequest "Plans array is required", db) ∧
      bulkCreateLessonPlans constraints db user (some []) =
        (PlanResponse.badRequest "Plans array is required", db) ∧
      (PlanResponse.badRequest "Plans array is required").status = 400 ∧
      bulkCreateLessonPlans constraints db user (some plans) =
        (PlanResponse.bulkCreated
          (toString rows.length ++ " lesson plans created successfully") rows, db') ∧
      (bulkCreateLessonPlans constraints db user (some plans)).1.status = 201 ∧
      rows.length = plans.length ∧
      List.Forall₂ (StoredFrom user) plans rows ∧
      db'.lesson_plans = db.lesson_plans ++ rows := by
  have hresp : bulkCreateLessonPlans constraints db user (some plans) =
      (PlanResponse.bulkCreated
        (toString rows.length ++ " lesson plans created successfully") rows, db') := by
    rw [bulkCreate_cons constraints db user plans hne, hall]
  obtain ⟨new, h1, h2, h3⟩ := bulkLoop_rows constraints user plans db [] rows db' hall
  rw [List.nil_append] at h1
  subst h1
  exact ⟨rfl, rfl, rfl, hresp, by rw [hresp]; rfl, h3.length_eq.symm, h3, h2⟩

/-- C29, witness: two plans with titles are stored in order for teacher 1. -/
theorem bulk_validates_input_witness :
    bulkLoop titleRequired teacherOne [planTitled "Sets", planTitled "Groups"] schoolDb [] =
        (some [setsRow, groupsRow],
          { schoolDb with lesson_plans := schoolDb.lesson_plans ++ [setsRow, groupsRow] }) ∧
      [setsRow, groupsRow].map (fun lp => lp.title) = ["Sets", "Groups"] ∧
      (bulkCreateLessonPlans titleRequired schoolDb teacherOne none).1.status = 400 ∧
      (bulkCreateLessonPlans titleRequired schoolDb teacherOne (some [])).1.status = 400 ∧
      (bulkCreateLessonPlans titleRequired schoolDb teacherOne
        (some [planTitled "Sets", planTitled "Groups"])).1.status = 201 :=
  ⟨by decide, by decide, by decide, by decide,
    (bulk_validates_input titleRequired schoolDb teacherOne
      [planTitled "Sets", planTitled "Groups"] [setsRow, groupsRow]
      { schoolDb with lesson_plans := schoolDb.lesson_plans ++ [setsRow, groupsRow] }
      (by decide) (by decide)).2.2.2.2.1⟩

/-- C30: the row the single create route stores holds the supplied start_date and
end_date, the row the bulk route stores for the same plan object holds neither, and
the two rows are otherwise the same; no row the bulk route stores holds a
start_date or an end_date. -/
theorem bulk_drops_dates (constraints : Db → LessonPlan → Bool) (db : Db) (user : User)
    (p : PlanInput)
    (hc1 : constraints db (createPlanRow db.lesson_plans user p) = true)
    (hc2 : constraints db (bulkPlanRow db.lesson_plans user p) = true) :
    (∃ single bulk : LessonPlan,
        createLessonPlan constraints db user p =
          (CreatePlanResponse.created single,
            { db with lesson_plans := db.lesson_plans ++ [single] }) ∧
        bulkCreateLessonPlans constraints db user (some [p]) =
          (PlanResponse.bulkCreated "1 lesson plans created successfully" [bulk],
            { db with lesson_plans := db.lesson_plans ++ [bulk] }) ∧
        single.start_date = p.start_date ∧ single.end_date = p.end_date ∧
        bulk.start_date = none ∧ bulk.end_date = none ∧
        bulk = { single with start_date := none, end_date := none }) ∧
      (∀ (plans : List PlanInput) (rows : List LessonPlan) (db' : Db),
        bulkLoop constraints user plans db [] = (some rows, db') →
        ∀ row ∈ rows, row.start_date = none ∧ row.end_date = none) := by
  constructor
  · refine ⟨createPlanRow db.lesson_plans user p, bulkPlanRow db.lesson_plans user p,
      ?_, ?_, rfl, rfl, rfl, rfl, rfl⟩
    · unfold createLessonPlan insertLessonPlan
      rw [if_pos hc1]
    · have hloop : bulkLoop constraints user [p] db [] =
          (some [bulkPlanRow db.lesson_plans user p],
            { db with lesson_plans := db.lesson_plans ++ [bulkPlanRow db.lesson_plans user p] }) := by
        rw [bulkLoop_cons]
        unfold insertLessonPlan
        rw [if_pos hc2]
        rfl
      rw [bulkCreate_cons constraints db user [p] (by simp), hloop]
      have hmsg : toString (1 : Nat) ++ " lesson plans created successfully" =
          "1 lesson plans created successfully" := by decide
      show (PlanResponse.bulkCreated
        (toString (1 : Nat) ++ " lesson plans created successfully") _, _) = _
      rw [hmsg]
  · intro plans rows db' hloop row hrow
    obtain ⟨new, h1, _, h3⟩ := bulkLoop_rows constraints user plans db [] rows db' hloop
    rw [List.nil_append] at h1
    subst h1
    obtain ⟨plan, _, hstored⟩ := forall₂_right_mem _ _ _ h3 row hrow
    exact ⟨hstored.2.2.2.2.2.2.2.2.2.1, hstored.2.2.2.2.2.2.2.2.2.2⟩

/-- C30, witness: the plan titled `Sets` supplies the days 1 to 5; the single route
stores them and the bulk route stores none. -/
theorem bulk_drops_dates_witness :
    (planTitled "Sets").start_date = some 1 ∧
      (createLessonPlan titleRequired schoolDb teacherOne (planTitled "Sets")).2.lesson_plans.map
        (fun lp => (lp.start_date, lp.end_date)) = [(none, none), (some 1, some 5)] ∧
      (bulkCreateLessonPlans titleRequired schoolDb teacherOne
        (some [planTitled "Sets"])).2.lesson_plans.map
        (fun lp => (lp.start_date, lp.end_date)) = [(none, none), (none, none)] ∧
      (∀ (plans : List PlanInput) (rows : List LessonPlan) (db' : Db),
        bulkLoop titleRequired teacherOne plans schoolDb [] = (some rows, db') →
        ∀ row ∈ rows, row.start_date = none ∧ row.end_date = none) :=
  ⟨by decide, by decide, by decide,
    (bulk_drops_dates titleRequired schoolDb teacherOne (planTitled "Sets")
      (by decide) (by decide)).2⟩

end AssetFlow
